import Mathlib

/-!
Shallow embedding of iamgafurov/crud.

The embedding follows the three Go packages of the repository:

* `pkg/security`  (`security.Service.AuthenticateCusomer`),
* `pkg/customers` (`customers.Service.*`),
* `cmd/app`       (`app.Server`, its route table and its handlers).

External collaborators (the relational store, the clock, the random source,
bcrypt, `net/http`, `gorilla/mux`, `encoding/json`) are modelled as explicit
inputs or as small executable models of the behaviour the code relies on.
-/

set_option autoImplicit false
set_option linter.dupNamespace false

namespace Crud

/-! ## Go error values -/

/-- A Go `error` value.  `sentinel pkg name` is the package-level variable
`pkg.name` created with `errors.New`; two sentinels are the same error value
exactly when package and name agree (the three packages of the repository each
declare their own `ErrNotFound`, `ErrInternal`, ...).  `failure msg` is any
other error produced by a library (driver, scan, decoder, writer).
`wrap msg inner` is an error whose `Unwrap` returns `inner`. -/
inductive GoError where
  | sentinel (pkg : String) (name : String)
  | failure (msg : String)
  | wrap (msg : String) (inner : GoError)
  deriving DecidableEq, Repr

/-- Go's `errors.Is(err, target)` for a non-nil `target`: walks the `Unwrap`
chain of `err` comparing each link with `target`. -/
def errorsIsChain (target : GoError) : GoError → Bool
  | GoError.wrap msg inner =>
      if GoError.wrap msg inner = target then true else errorsIsChain target inner
  | e => decide (e = target)

/-- Go's `errors.Is(err, target)` where `err` may be `nil` (`none`). -/
def errorsIs (err : Option GoError) (target : GoError) : Bool :=
  match err with
  | none => false
  | some e => errorsIsChain target e

/-- The value `pgx.ErrNoRows`. -/
def pgx.ErrNoRows : GoError := GoError.sentinel "pgx" "ErrNoRows"

/-! ## Machine integers and time -/

/-- Two's-complement reduction of an integer to `int64`. -/
def wrap64 (x : Int) : Int := (x + 2 ^ 63) % 2 ^ 64 - 2 ^ 63

/-- A `time.Time` instant: seconds since the Unix epoch, nanoseconds within
the second, and the zone offset (seconds east of UTC) of its location. -/
structure Time where
  sec : Int
  nsec : Nat
  offset : Int
  deriving DecidableEq, Repr

/-- The exact number of nanoseconds between the Unix epoch and the instant
(unbounded; this is the order of instants). -/
def Time.nanos (t : Time) : Int := t.sec * 1000000000 + (t.nsec : Int)

/-- Go's `Time.UnixNano`: `unixSec*1e9 + nsec` evaluated in `int64`. -/
def Time.UnixNano (t : Time) : Int := wrap64 (wrap64 (t.sec * 1000000000) + (t.nsec : Int))

/-- The instant has a nanosecond count that fits `int64` (dates between the
years 1678 and 2262). -/
def Time.fitsInt64 (t : Time) : Prop := -(2 : Int) ^ 63 ≤ t.nanos ∧ t.nanos < 2 ^ 63

instance (t : Time) : Decidable t.fitsInt64 := by
  unfold Time.fitsInt64; exact inferInstance

/-! ## The relational store -/

/-- A row of `customers(id, name, phone, password, active, created)`. -/
structure CustomerRow where
  id : Int
  name : String
  phone : String
  password : String
  active : Bool
  created : Time
  deriving DecidableEq, Repr

/-- A row of `customers_tokens(token, customer_id, expire)`; `expire` may be
SQL `NULL` (`none`). -/
structure TokenRow where
  token : String
  customer_id : Int
  expire : Option Time
  deriving DecidableEq, Repr

/-- The `pgxpool.Pool` together with the database behind it.

* `queryErr`: when set, every `Query`/`QueryRow` fails with this error before
  reaching the tables (lost connection, cancelled context, ...);
* `execErr`: the same for `Exec`;
* `expireDefault`: the value the schema gives `customers_tokens.expire` when an
  `INSERT` does not mention the column (`none` = `NULL`).  The schema is not
  part of the sources, so this is an input;
* `nextCustomerID`, `createdDefault`: the values the schema gives
  `customers.id` and `customers.created` on the next `INSERT`. -/
structure Pool where
  customers : List CustomerRow
  customers_tokens : List TokenRow
  queryErr : Option GoError
  execErr : Option GoError
  expireDefault : Option Time
  nextCustomerID : Int
  createdDefault : Time
  deriving DecidableEq, Repr

namespace security

def ErrNotFound : GoError := GoError.sentinel "security" "ErrNotFound"
def ErrExpired : GoError := GoError.sentinel "security" "ErrExpired"
def ErrInternal : GoError := GoError.sentinel "security" "ErrInternal"
def ErrNoSuchUser : GoError := GoError.sentinel "security" "ErrNoSuchUser"
def ErrInvalidPassword : GoError := GoError.sentinel "security" "ErrInvalidPassword"

/-- The statement
`QueryRow(ctx, "SELECT customer_id, expire FROM customers_tokens WHERE token = $1", token).Scan(&id, &expiredTime)`:
the first row with that token, scanned into an `int64` and a `time.Time`.
No row gives `pgx.ErrNoRows`; a `NULL` expire cannot be assigned to a
`time.Time` and makes `Scan` fail. -/
def scanTokenRow (pool : Pool) (token : String) : Except GoError (Int × Time) :=
  match pool.queryErr with
  | some e => Except.error e
  | none =>
    match pool.customers_tokens.find? (fun r => r.token == token) with
    | none => Except.error pgx.ErrNoRows
    | some r =>
      match r.expire with
      | none => Except.error (GoError.failure "cannot assign NULL to *time.Time")
      | some t => Except.ok (r.customer_id, t)

/-- `(*Service).AuthenticateCusomer`, `pkg/security/service.go` lines 51-68.
`now` is the value of `time.Now()` on line 56. -/
def AuthenticateCusomer (pool : Pool) (now : Time) (token : String) : Int × Option GoError :=
  let nowTimeInSec := now.UnixNano
  match scanTokenRow pool token with
  | Except.error _ => (0, some ErrNoSuchUser)
  | Except.ok (id, expiredTime) =>
    if nowTimeInSec > expiredTime.UnixNano then (-1, some ErrExpired)
    else (id, none)

end security

/-- A token is stored at most once in `customers_tokens` (the token column is
a key), so a token determines its row. -/
def TokenIsKey (pool : Pool) : Prop :=
  ∀ r₁ ∈ pool.customers_tokens, ∀ r₂ ∈ pool.customers_tokens, r₁.token = r₂.token → r₁ = r₂

/-! ## `encoding/hex` and `crypto/rand` -/

/-- A Go `byte`. -/
abbrev Byte := Fin 256

/-- The `hextable` constant of `encoding/hex`: `"0123456789abcdef"`. -/
def hextable : List Char :=
  ['0', '1', '2', '3', '4', '5', '6', '7', '8', '9', 'a', 'b', 'c', 'd', 'e', 'f']

/-- Go's `hex.EncodeToString`: every source byte `v` contributes
`hextable[v>>4]` followed by `hextable[v&0x0f]`. -/
def hex.EncodeToString (src : List Byte) : String :=
  String.mk (src.flatMap (fun v =>
    [hextable.get ⟨v.val >>> 4, by
        rw [Nat.shiftRight_eq_div_pow]
        have h := v.isLt
        show v.val / 16 < 16
        omega⟩,
     hextable.get ⟨v.val &&& 0x0f, Nat.and_lt_two_pow v.val (by decide : 0x0f < 2 ^ 4)⟩]))

/-- Go's `rand.Read(buffer)` on a buffer of `len` zero bytes: fills the
buffer from the random source, of which `avail` bytes can still be read, and
returns the buffer, the number of bytes read and an error when the source
delivered fewer than `len` bytes. -/
def rand.Read (avail : List Byte) (len : Nat) : List Byte × Nat × Option GoError :=
  let got := avail.take len
  (got ++ List.replicate (len - got.length) 0, got.length,
    if got.length < len then some (GoError.failure "unexpected EOF") else none)

/-! ## Package `customers` -/

namespace customers

def ErrNotFound : GoError := GoError.sentinel "customers" "ErrNotFound"
def ErrInternal : GoError := GoError.sentinel "customers" "ErrInternal"
def ErrNoSuchUser : GoError := GoError.sentinel "customers" "ErrNoSuchUser"
def ErrInvalidPassword : GoError := GoError.sentinel "customers" "ErrInvalidPassword"

/-- The struct `customers.Customer`. -/
structure Customer where
  ID : Int
  Name : String
  Phone : String
  Active : Bool
  Created : Time
  deriving DecidableEq, Repr

/-- The struct `customers.CustomerAuth`. -/
structure CustomerAuth where
  Name : String
  Phone : String
  Password : String
  deriving DecidableEq, Repr

/-- The external inputs of the customers service besides the pool: bcrypt and
the bytes the random source can deliver. -/
structure Deps where
  bcryptCompare : String → String → Bool
  bcryptGenerate : String → Except GoError String
  random : List Byte

/-- Scanning the columns `id, name, phone, active, created` of a row. -/
def scanCustomer (r : CustomerRow) : Customer :=
  { ID := r.id, Name := r.name, Phone := r.phone, Active := r.active, Created := r.created }

/-- The tail shared by `ByID`, `RemoveByID`, `BlockByID` and `UnBlockByID`
after `QueryRow(...).Scan(...)`: `pgx.ErrNoRows` becomes `ErrNotFound`, any
other error `ErrInternal`. -/
def rowResult (scanned : Except GoError CustomerRow) : Option Customer × Option GoError :=
  match scanned with
  | Except.error err =>
    if errorsIs (some err) pgx.ErrNoRows then (none, some ErrNotFound)
    else (none, some ErrInternal)
  | Except.ok r => (some (scanCustomer r), none)

/-- `QueryRow` over `customers` selecting by id: the first row with that id. -/
def queryRowByID (pool : Pool) (id : Int) : Except GoError CustomerRow :=
  match pool.queryErr with
  | some e => Except.error e
  | none =>
    match pool.customers.find? (fun r => r.id == id) with
    | none => Except.error pgx.ErrNoRows
    | some r => Except.ok r

/-- `(*Service).ByID`, lines 43-59. -/
def ByID (pool : Pool) (id : Int) : (Option Customer × Option GoError) × Pool :=
  (rowResult (queryRowByID pool id), pool)

/-- The rows a `Query` over `customers ... ORDER BY id` delivers. -/
def queryAll (pool : Pool) (keep : CustomerRow → Bool) : Except GoError (List CustomerRow) :=
  match pool.queryErr with
  | some e => Except.error e
  | none => Except.ok ((pool.customers.filter keep).insertionSort (fun a b => a.id ≤ b.id))

/-- The body shared by `All` and `AllActive` after `Query`. -/
def rowsResult (rows : Except GoError (List CustomerRow)) :
    Option (List Customer) × Option GoError :=
  match rows with
  | Except.error err =>
    if errorsIs (some err) pgx.ErrNoRows then (none, some ErrNotFound)
    else (none, some ErrInternal)
  | Except.ok rs => (some (rs.map scanCustomer), none)

/-- `(*Service).All`, lines 61-81. -/
def All (pool : Pool) : (Option (List Customer) × Option GoError) × Pool :=
  (rowsResult (queryAll pool (fun _ => true)), pool)

/-- `(*Service).AllActive`, lines 83-103. -/
def AllActive (pool : Pool) : (Option (List Customer) × Option GoError) × Pool :=
  (rowsResult (queryAll pool (fun r => r.active)), pool)

/-- `(*Service).RemoveByID`, lines 144-157:
`DELETE FROM customers WHERE id = $1 RETURNING ...`. -/
def RemoveByID (pool : Pool) (id : Int) : (Option Customer × Option GoError) × Pool :=
  match pool.queryErr with
  | some _ => (rowResult (queryRowByID pool id), pool)
  | none =>
    (rowResult (queryRowByID pool id),
      { pool with customers := pool.customers.filter (fun r => !(r.id == id)) })

/-- `UPDATE customers SET active = v WHERE id = $1 RETURNING ...`. -/
def setActive (pool : Pool) (id : Int) (v : Bool) : (Option Customer × Option GoError) × Pool :=
  match pool.queryErr with
  | some _ => (rowResult (queryRowByID pool id), pool)
  | none =>
    let updated := pool.customers.map (fun r => if r.id == id then { r with active := v } else r)
    (rowResult (queryRowByID { pool with customers := updated } id),
      { pool with customers := updated })

/-- `(*Service).BlockByID`, lines 159-172. -/
def BlockByID (pool : Pool) (id : Int) : (Option Customer × Option GoError) × Pool :=
  setActive pool id false

/-- `(*Service).UnBlockByID`, lines 174-187. -/
def UnBlockByID (pool : Pool) (id : Int) : (Option Customer × Option GoError) × Pool :=
  setActive pool id true

/-- `QueryRow(ctx, "SELECT id,password From customers WHERE phone = $1", phone).Scan(&id, &hash)`. -/
def scanIDAndHash (pool : Pool) (phone : String) : Except GoError (Int × String) :=
  match pool.queryErr with
  | some e => Except.error e
  | none =>
    match pool.customers.find? (fun r => r.phone == phone) with
    | none => Except.error pgx.ErrNoRows
    | some r => Except.ok (r.id, r.password)

/-- `Exec(ctx, "INSERT INTO customers_tokens(token,customer_id) VALUES($1,$2)", token, id)`:
the new row takes the schema's default for `expire`. -/
def insertToken (pool : Pool) (token : String) (id : Int) : Option GoError × Pool :=
  match pool.execErr with
  | some e => (some e, pool)
  | none =>
    (none, { pool with
      customers_tokens := pool.customers_tokens ++ [⟨token, id, pool.expireDefault⟩] })

/-- `(*Service).TokenForCustomer`, lines 189-221. -/
def TokenForCustomer (deps : Deps) (pool : Pool) (phone : String) (password : String) :
    (String × Option GoError) × Pool :=
  match scanIDAndHash pool phone with
  | Except.error err =>
    if err = pgx.ErrNoRows then (("", some ErrInvalidPassword), pool)
    else (("", some ErrInternal), pool)
  | Except.ok (id, hash) =>
    if !(deps.bcryptCompare hash password) then (("", some ErrInvalidPassword), pool)
    else
      let (buffer, n, err) := rand.Read deps.random 256
      if n ≠ buffer.length ∨ err ≠ none then (("", some ErrInternal), pool)
      else
        let token := hex.EncodeToString buffer
        match insertToken pool token id with
        | (some _, pool') => (("", some ErrInternal), pool')
        | (none, pool') => ((token, none), pool')

/-- The zero `time.Time` (January 1, year 1, 00:00:00 UTC). -/
def zeroTime : Time := ⟨-62135596800, 0, 0⟩

/-- `(*Service).Create`, lines 105-125.  `item` is a pointer; reading
`item.Name` through the nil pointer (`none`) is a run-time panic, returned as
`none`. -/
def Create (deps : Deps) (pool : Pool) (item : Option CustomerAuth) :
    Option ((Option Customer × Option GoError) × Pool) :=
  match item with
  | none => none
  | some item =>
    let customer : Customer :=
      { ID := 0, Name := item.Name, Phone := item.Phone, Active := true, Created := zeroTime }
    match deps.bcryptGenerate item.Password with
    | Except.error _ => some ((none, some ErrInternal), pool)
    | Except.ok hash =>
      match pool.queryErr with
      | some _ => some ((none, some ErrInternal), pool)
      | none =>
        some ((some { customer with ID := pool.nextCustomerID }, none),
          { pool with
            customers := pool.customers ++
              [⟨pool.nextCustomerID, item.Name, item.Phone, hash, true, pool.createdDefault⟩],
            nextCustomerID := pool.nextCustomerID + 1 })

end customers

/-! ## `encoding/json`, up to the JSON value that is written -/

/-- A scalar JSON value; `time t` is the RFC 3339 string of the instant `t`. -/
inductive JSONLeaf where
  | null
  | bool (b : Bool)
  | num (n : Int)
  | str (s : String)
  | time (t : Time)
  deriving DecidableEq, Repr

/-- A JSON object: its members in the order they are written. -/
abbrev JSONObject := List (String × JSONLeaf)

/-- The JSON documents the server produces. -/
inductive JSON where
  | null
  | obj (members : JSONObject)
  | arr (items : List JSONObject)
  deriving DecidableEq, Repr

/-- A piece of a response body: an encoded JSON document or plain text. -/
inductive Chunk where
  | json (v : JSON)
  | text (s : String)
  deriving DecidableEq, Repr

/-- A Go `[]byte` holding response data; `[]` is the nil slice. -/
abbrev Bytes := List Chunk

/-- Go's `Time.MarshalJSON`: fails when the year, in the time's location, is
outside `[0, 9999]`. -/
def Time.MarshalJSON (t : Time) : Except GoError JSONLeaf :=
  let abs := t.sec + t.offset
  if abs < -62167219200 ∨ abs ≥ 253402300800 then
    Except.error (GoError.failure "Time.MarshalJSON: year outside of range [0,9999]")
  else Except.ok (JSONLeaf.time t)

/-- The object `json.Marshal` writes for a `customers.Customer`, by its tags. -/
def json.customerObject (c : customers.Customer) : Except GoError JSONObject :=
  match c.Created.MarshalJSON with
  | Except.error e => Except.error e
  | Except.ok created =>
    Except.ok [("id", JSONLeaf.num c.ID), ("name", JSONLeaf.str c.Name),
      ("phone", JSONLeaf.str c.Phone), ("active", JSONLeaf.bool c.Active), ("created", created)]

/-- `json.Marshal(item)` for `item *customers.Customer` (`none` is the nil pointer). -/
def json.MarshalCustomer (item : Option customers.Customer) : Except GoError Bytes :=
  match item with
  | none => Except.ok [Chunk.json JSON.null]
  | some c =>
    match json.customerObject c with
    | Except.error e => Except.error e
    | Except.ok o => Except.ok [Chunk.json (JSON.obj o)]

/-- `json.Marshal(items)` for `items []*customers.Customer` (`none` is the nil slice). -/
def json.MarshalCustomers (items : Option (List customers.Customer)) : Except GoError Bytes :=
  match items with
  | none => Except.ok [Chunk.json JSON.null]
  | some cs =>
    match cs.mapM json.customerObject with
    | Except.error e => Except.error e
    | Except.ok os => Except.ok [Chunk.json (JSON.arr os)]

/-! ## `net/http` -/

/-- `http.Header.Set`. -/
def Header.Set (h : List (String × String)) (key value : String) : List (String × String) :=
  h.filter (fun kv => !(kv.1 == key)) ++ [(key, value)]

/-- An `http.ResponseWriter`, with a record of what was done to it.

* `header`: the header map returned by `Header()`;
* `status`, `sentHeader`: the status code and the headers fixed by the first
  `WriteHeader` (`none` while no header was written);
* `body`: everything written so far;
* `writeHeaderCalls`, `writeCalls`: how often `WriteHeader` (explicitly, or
  implicitly by the first `Write`) and `Write` were called;
* `broken`: the connection is broken, so `Write` fails. -/
structure ResponseWriter where
  header : List (String × String)
  status : Option Nat
  sentHeader : List (String × String)
  body : Bytes
  writeHeaderCalls : Nat
  writeCalls : Nat
  broken : Bool
  deriving DecidableEq, Repr

/-- The writer a handler is given for a new request. -/
def ResponseWriter.fresh (broken : Bool) : ResponseWriter :=
  { header := [], status := none, sentHeader := [], body := [], writeHeaderCalls := 0,
    writeCalls := 0, broken := broken }

/-- `w.Header().Set(key, value)`. -/
def ResponseWriter.SetHeader (w : ResponseWriter) (key value : String) : ResponseWriter :=
  { w with header := Header.Set w.header key value }

/-- `w.WriteHeader(code)`: only the first call fixes status and headers; a
later call is superfluous and changes nothing but is still a call. -/
def ResponseWriter.WriteHeader (w : ResponseWriter) (code : Nat) : ResponseWriter :=
  match w.status with
  | some _ => { w with writeHeaderCalls := w.writeHeaderCalls + 1 }
  | none =>
    { w with status := some code, sentHeader := w.header,
             writeHeaderCalls := w.writeHeaderCalls + 1 }

/-- `w.Write(data)`: writes the header with status 200 first when none was
written, then the data. -/
def ResponseWriter.Write (w : ResponseWriter) (data : Bytes) : ResponseWriter × Option GoError :=
  let w := match w.status with
    | none => w.WriteHeader 200
    | some _ => w
  if w.broken then
    ({ w with writeCalls := w.writeCalls + 1 }, some (GoError.failure "write: broken pipe"))
  else ({ w with body := w.body ++ data, writeCalls := w.writeCalls + 1 }, none)

/-- `http.StatusText`. -/
def http.StatusText (code : Nat) : String :=
  if code = 400 then "Bad Request"
  else if code = 404 then "Not Found"
  else if code = 405 then "Method Not Allowed"
  else if code = 500 then "Internal Server Error"
  else ""

def http.StatusBadRequest : Nat := 400
def http.StatusNotFound : Nat := 404
def http.StatusMethodNotAllowed : Nat := 405
def http.StatusInternalServerError : Nat := 500

/-- `http.Error(w, msg, code)`: sets the plain-text headers, writes the header
with `code` and prints `msg` followed by a newline to the body. -/
def http.Error (w : ResponseWriter) (msg : String) (code : Nat) : ResponseWriter :=
  let w := w.SetHeader "Content-Type" "text/plain; charset=utf-8"
  let w := w.SetHeader "X-Content-Type-Options" "nosniff"
  let w := w.WriteHeader code
  (w.Write [Chunk.text (msg ++ "\n")]).1

/-! ## `strconv` -/

def strconv.ErrSyntax : GoError := GoError.sentinel "strconv" "ErrSyntax"
def strconv.ErrRange : GoError := GoError.sentinel "strconv" "ErrRange"

/-- The loop of `strconv.ParseUint(s, 10, 64)` over the remaining characters,
`n` being the value accumulated so far (a `uint64`). -/
def strconv.parseUintLoop : List Char → Nat → Nat × Option GoError
  | [], n => (n, none)
  | c :: cs, n =>
    if '0' ≤ c ∧ c ≤ '9' then
      let d := c.toNat - '0'.toNat
      if d ≥ 10 then (0, some strconv.ErrSyntax)
      else if n ≥ (2 ^ 64 - 1) / 10 + 1 then (2 ^ 64 - 1, some strconv.ErrRange)
      else
        let n' := n * 10 % 2 ^ 64
        let n1 := (n' + d) % 2 ^ 64
        if n1 < n' ∨ n1 > 2 ^ 64 - 1 then (2 ^ 64 - 1, some strconv.ErrRange)
        else strconv.parseUintLoop cs n1
    else (0, some strconv.ErrSyntax)

/-- `strconv.ParseUint(s, 10, 64)`.  A letter is a digit of value at least 10
and any other character is no digit at all: both are syntax errors in base 10. -/
def strconv.ParseUint (s : List Char) : Nat × Option GoError :=
  match s with
  | [] => (0, some strconv.ErrSyntax)
  | _ => strconv.parseUintLoop s 0

/-- `strconv.ParseInt(s, 10, 64)`. -/
def strconv.ParseInt (s : String) : Int × Option GoError :=
  match s.toList with
  | [] => (0, some strconv.ErrSyntax)
  | c :: cs =>
    let neg := decide (c = '-')
    let digits := if c = '+' ∨ c = '-' then cs else c :: cs
    let (un, err) := strconv.ParseUint digits
    if err ≠ none ∧ err ≠ some strconv.ErrRange then (0, err)
    else if !neg ∧ un ≥ 2 ^ 63 then (2 ^ 63 - 1, some strconv.ErrRange)
    else if neg ∧ un > 2 ^ 63 then (-(2 ^ 63), some strconv.ErrRange)
    else if neg then (-(un : Int), none) else ((un : Int), none)

/-! ## `gorilla/mux` -/

/-- A segment of a route template: literal text, a variable `{name}` (pattern
`[^/]+`) or a variable `{name:[0-9]+}`. -/
inductive Seg where
  | lit (s : String)
  | var (name : String)
  | digits (name : String)
  deriving DecidableEq, Repr

/-- Splits the characters of a path at every `/`. -/
def splitPath (path : List Char) : List (List Char) :=
  path.foldr (fun c acc =>
    if c = '/' then [] :: acc
    else match acc with
      | [] => [[c]]
      | seg :: rest => (c :: seg) :: rest) [[]]

/-- Matches the segments of a path against the segments of a template and
collects the variables; both must have the same number of segments. -/
def matchSegs : List Seg → List (List Char) → Option (List (String × String))
  | [], [] => some []
  | Seg.lit s :: tpl, seg :: segs =>
    if s.toList = seg then matchSegs tpl segs else none
  | Seg.var name :: tpl, seg :: segs =>
    if seg ≠ [] then (matchSegs tpl segs).map (fun vars => (name, String.mk seg) :: vars)
    else none
  | Seg.digits name :: tpl, seg :: segs =>
    if seg ≠ [] ∧ seg.all (fun c => decide ('0' ≤ c ∧ c ≤ '9')) then
      (matchSegs tpl segs).map (fun vars => (name, String.mk seg) :: vars)
    else none
  | _, _ => none

/-- Matches a request path (which starts with `/`) against a template given by
its segments after the leading `/`. -/
def matchPath (tpl : List Seg) (path : String) : Option (List (String × String)) :=
  match splitPath path.toList with
  | [] :: segs => matchSegs tpl segs
  | _ => none

/-- The struct `security.Auth`. -/
structure security.Auth where
  Login : String
  Password : String
  deriving DecidableEq, Repr

namespace app

def GET : String := "GET"
def POST : String := "POST"
def DELETE : String := "DELETE"

/-- The struct `app.Token`. -/
structure Token where
  Token : String
  deriving DecidableEq, Repr

/-- The struct `app.ResponceOk`. -/
structure ResponceOk where
  Status : String
  CustomerID : Int
  deriving DecidableEq, Repr

/-- The struct `app.ResponceFail`. -/
structure ResponceFail where
  Status : String
  Reason : String
  deriving DecidableEq, Repr

/-- `json.Marshal(ok)` for `ok ResponceOk`. -/
def MarshalResponceOk (ok : ResponceOk) : Except GoError Bytes :=
  Except.ok [Chunk.json (JSON.obj
    [("status", JSONLeaf.str ok.Status), ("customerId", JSONLeaf.num ok.CustomerID)])]

/-- `json.Marshal(fail)` for `fail ResponceFail`. -/
def MarshalResponceFail (fail : ResponceFail) : Except GoError Bytes :=
  Except.ok [Chunk.json (JSON.obj
    [("status", JSONLeaf.str fail.Status), ("reason", JSONLeaf.str fail.Reason)])]

/-- `json.Marshal(tok)` for `tok Token`. -/
def MarshalToken (tok : Token) : Except GoError Bytes :=
  Except.ok [Chunk.json (JSON.obj [("token", JSONLeaf.str tok.Token)])]

/-- An `*http.Request` as the handlers use it: method, URL path, body and the
route variables `mux.Vars(r)`. -/
structure Request where
  method : String
  path : String
  body : String
  vars : List (String × String)
  deriving DecidableEq, Repr

/-- The methods of `*customers.Service` the handlers call, over a store `σ`. -/
structure CustomersSvc (σ : Type) where
  ByID : σ → Int → (Option customers.Customer × Option GoError) × σ
  All : σ → (Option (List customers.Customer) × Option GoError) × σ
  AllActive : σ → (Option (List customers.Customer) × Option GoError) × σ
  Create : σ → Option customers.CustomerAuth →
    Option ((Option customers.Customer × Option GoError) × σ)
  RemoveByID : σ → Int → (Option customers.Customer × Option GoError) × σ
  BlockByID : σ → Int → (Option customers.Customer × Option GoError) × σ
  UnBlockByID : σ → Int → (Option customers.Customer × Option GoError) × σ
  TokenForCustomer : σ → String → String → (String × Option GoError) × σ

/-- The method of `*security.Service` the handlers call. -/
structure SecuritySvc (σ : Type) where
  AuthenticateCusomer : σ → String → (Int × Option GoError) × σ

/-- The struct `app.Server`: the two services, and the outcome of
`json.NewDecoder(r.Body).Decode(&v)` for the three kinds of `v` the handlers
decode into (a `Token`, a `*security.Auth`, a `*customers.CustomerAuth`; a
pointer may be left nil). -/
structure Server (σ : Type) where
  customersSvc : CustomersSvc σ
  securitySvc : SecuritySvc σ
  decodeToken : String → Except GoError Token
  decodeAuth : String → Except GoError (Option security.Auth)
  decodeCustomerAuth : String → Except GoError (Option customers.CustomerAuth)

/-- The end shared by the handlers that answer with JSON: a marshalling error
gives 500; otherwise the content type is set and the data written; a failed
write is answered with `http.Error` again. -/
def writeJSON (w : ResponseWriter) (marshalled : Except GoError Bytes) : ResponseWriter :=
  match marshalled with
  | Except.error _ =>
    http.Error w (http.StatusText http.StatusInternalServerError) http.StatusInternalServerError
  | Except.ok data =>
    let w := w.SetHeader "Content-Type" "application/json"
    match w.Write data with
    | (w, some _) =>
      http.Error w (http.StatusText http.StatusInternalServerError) http.StatusInternalServerError
    | (w, none) => w

/-- The body shared, word for word, by `handleGetCustomersByID` (lines 77-111),
`handleCustomersRemoveByID` (188-221), `handleCustomersBlockByID` (223-257)
and `handleCustomersUnBlockByID` (259-293); `call` is the service method. -/
def handleWithID {σ : Type}
    (call : σ → Int → (Option customers.Customer × Option GoError) × σ)
    (w : ResponseWriter) (r : Request) (st : σ) : ResponseWriter × σ :=
  match r.vars.lookup "id" with
  | none => (http.Error w (http.StatusText http.StatusBadRequest) http.StatusBadRequest, st)
  | some idParam =>
    match strconv.ParseInt idParam with
    | (_, some _) =>
      (http.Error w (http.StatusText http.StatusBadRequest) http.StatusBadRequest, st)
    | (id, none) =>
      match call st id with
      | ((item, err), st) =>
        if errorsIs err customers.ErrNotFound then
          (http.Error w (http.StatusText http.StatusNotFound) http.StatusNotFound, st)
        else if err ≠ none then
          (http.Error w (http.StatusText http.StatusInternalServerError)
            http.StatusInternalServerError, st)
        else (writeJSON w (json.MarshalCustomer item), st)

def handleGetCustomersByID {σ : Type} (s : Server σ) (w : ResponseWriter) (r : Request)
    (st : σ) : ResponseWriter × σ :=
  handleWithID s.customersSvc.ByID w r st

def handleCustomersRemoveByID {σ : Type} (s : Server σ) (w : ResponseWriter) (r : Request)
    (st : σ) : ResponseWriter × σ :=
  handleWithID s.customersSvc.RemoveByID w r st

def handleCustomersBlockByID {σ : Type} (s : Server σ) (w : ResponseWriter) (r : Request)
    (st : σ) : ResponseWriter × σ :=
  handleWithID s.customersSvc.BlockByID w r st

def handleCustomersUnBlockByID {σ : Type} (s : Server σ) (w : ResponseWriter) (r : Request)
    (st : σ) : ResponseWriter × σ :=
  handleWithID s.customersSvc.UnBlockByID w r st

/-- The body shared by `handleGetCustomersAll` (lines 113-134) and
`handleGetCustomersAllActive` (136-157).  The `ErrNotFound` branch calls
`http.Error` and does not return. -/
def handleList {σ : Type}
    (call : σ → (Option (List customers.Customer) × Option GoError) × σ)
    (w : ResponseWriter) (st : σ) : ResponseWriter × σ :=
  match call st with
  | ((items, err), st) =>
    let w := if errorsIs err customers.ErrNotFound then
        http.Error w (http.StatusText http.StatusNotFound) http.StatusNotFound
      else w
    if err ≠ none then
      (http.Error w (http.StatusText http.StatusInternalServerError)
        http.StatusInternalServerError, st)
    else (writeJSON w (json.MarshalCustomers items), st)

def handleGetCustomersAll {σ : Type} (s : Server σ) (w : ResponseWriter) (_r : Request)
    (st : σ) : ResponseWriter × σ :=
  handleList s.customersSvc.All w st

def handleGetCustomersAllActive {σ : Type} (s : Server σ) (w : ResponseWriter) (_r : Request)
    (st : σ) : ResponseWriter × σ :=
  handleList s.customersSvc.AllActive w st

/-- `handleGetCustomersSave`, lines 159-186; `none` is a run-time panic. -/
def handleGetCustomersSave {σ : Type} (s : Server σ) (w : ResponseWriter) (r : Request)
    (st : σ) : Option (ResponseWriter × σ) :=
  match s.decodeCustomerAuth r.body with
  | Except.error _ =>
    some (http.Error w (http.StatusText http.StatusInternalServerError)
      http.StatusInternalServerError, st)
  | Except.ok item =>
    match s.customersSvc.Create st item with
    | none => none
    | some ((customer, err), st) =>
      if err ≠ none then
        some (http.Error w (http.StatusText http.StatusInternalServerError)
          http.StatusInternalServerError, st)
      else some (writeJSON w (json.MarshalCustomer customer), st)

/-- `handleGetToken`, lines 295-325; `none` is a run-time panic (reading
`auth.Login` through a nil pointer on line 305). -/
def handleGetToken {σ : Type} (s : Server σ) (w : ResponseWriter) (r : Request)
    (st : σ) : Option (ResponseWriter × σ) :=
  match s.decodeAuth r.body with
  | Except.error _ =>
    some (http.Error w (http.StatusText http.StatusInternalServerError)
      http.StatusInternalServerError, st)
  | Except.ok none => none
  | Except.ok (some auth) =>
    match s.customersSvc.TokenForCustomer st auth.Login auth.Password with
    | ((token, err), st) =>
      if err ≠ none then
        some (http.Error w (http.StatusText http.StatusInternalServerError)
          http.StatusInternalServerError, st)
      else some (writeJSON w (MarshalToken { Token := token }), st)

/-- `handleValidateToken`, lines 326-380. -/
def handleValidateToken {σ : Type} (s : Server σ) (w : ResponseWriter) (r : Request)
    (st : σ) : ResponseWriter × σ :=
  match s.decodeToken r.body with
  | Except.error _ =>
    (http.Error w (http.StatusText http.StatusInternalServerError)
      http.StatusInternalServerError, st)
  | Except.ok token =>
    match s.securitySvc.AuthenticateCusomer st token.Token with
    | ((id, er), st) =>
      let branch : Option (Nat × ResponceFail × ResponceOk) :=
        if er = some security.ErrNoSuchUser then
          some (404, { Status := "fail", Reason := "not found" }, { Status := "", CustomerID := 0 })
        else if er = some security.ErrExpired then
          some (400, { Status := "fail", Reason := "expired" }, { Status := "", CustomerID := 0 })
        else if er = none then
          some (200, { Status := "", Reason := "" }, { Status := "ok", CustomerID := id })
        else none
      match branch with
      | none =>
        (http.Error w (http.StatusText http.StatusInternalServerError)
          http.StatusInternalServerError, st)
      | some (code, fail, ok) =>
        let w := w.SetHeader "Content-Type" "application/json"
        let (w, data) : ResponseWriter × Bytes :=
          if code ≠ 200 then
            (w.WriteHeader code,
              match MarshalResponceFail fail with
              | Except.ok d => d
              | Except.error _ => [])
          else
            (w,
              match MarshalResponceOk ok with
              | Except.ok d => d
              | Except.error _ => [])
        match w.Write data with
        | (w, some _) =>
          (http.Error w (http.StatusText http.StatusInternalServerError)
            http.StatusInternalServerError, st)
        | (w, none) => (w, st)

/-- The handlers of the server, as the route table names them. -/
inductive HandlerName where
  | handleGetCustomersByID
  | handleGetCustomersAllActive
  | handleGetCustomersAll
  | handleGetToken
  | handleValidateToken
  | handleGetCustomersSave
  | handleCustomersBlockByID
  | handleCustomersUnBlockByID
  | handleCustomersRemoveByID
  deriving DecidableEq, Repr

/-- A registered route: path template, method, handler. -/
structure Route where
  template : List Seg
  method : String
  handler : HandlerName
  deriving DecidableEq, Repr

/-- The route table built by `(*Server).Init`, lines 62-75, in registration
order. -/
def Init : List Route :=
  [ ⟨[Seg.lit "customers", Seg.digits "id"], GET, HandlerName.handleGetCustomersByID⟩,
    ⟨[Seg.lit "customers", Seg.lit "active"], GET, HandlerName.handleGetCustomersAllActive⟩,
    ⟨[Seg.lit "customers"], GET, HandlerName.handleGetCustomersAll⟩,
    ⟨[Seg.lit "api", Seg.lit "customers", Seg.lit "token"], POST, HandlerName.handleGetToken⟩,
    ⟨[Seg.lit "api", Seg.lit "customers", Seg.lit "token", Seg.lit "validate"], POST,
      HandlerName.handleValidateToken⟩,
    ⟨[Seg.lit "api", Seg.lit "customers"], POST, HandlerName.handleGetCustomersSave⟩,
    ⟨[Seg.lit "customers", Seg.var "id", Seg.lit "block"], POST,
      HandlerName.handleCustomersBlockByID⟩,
    ⟨[Seg.lit "customers", Seg.var "id", Seg.lit "block"], DELETE,
      HandlerName.handleCustomersUnBlockByID⟩,
    ⟨[Seg.lit "customers"], DELETE, HandlerName.handleCustomersRemoveByID⟩ ]

/-- The outcome of `mux.Router.Match`. -/
inductive RouteMatch where
  | matched (handler : HandlerName) (vars : List (String × String))
  | methodMismatch
  | notFound
  deriving DecidableEq, Repr

/-- `mux.Router.Match`: the first route whose path template and method both
match wins; when none does but some template matched the path, the result is a
method mismatch. -/
def routerMatch (routes : List Route) (method path : String) : RouteMatch :=
  match routes.find? (fun rt => (matchPath rt.template path).isSome && rt.method == method) with
  | some rt => RouteMatch.matched rt.handler ((matchPath rt.template path).getD [])
  | none =>
    if routes.any (fun rt => (matchPath rt.template path).isSome) then RouteMatch.methodMismatch
    else RouteMatch.notFound

/-- Runs the named handler. -/
def runHandler {σ : Type} (s : Server σ) (h : HandlerName) (w : ResponseWriter) (r : Request)
    (st : σ) : Option (ResponseWriter × σ) :=
  match h with
  | HandlerName.handleGetCustomersByID => some (handleGetCustomersByID s w r st)
  | HandlerName.handleGetCustomersAllActive => some (handleGetCustomersAllActive s w r st)
  | HandlerName.handleGetCustomersAll => some (handleGetCustomersAll s w r st)
  | HandlerName.handleGetToken => handleGetToken s w r st
  | HandlerName.handleValidateToken => some (handleValidateToken s w r st)
  | HandlerName.handleGetCustomersSave => handleGetCustomersSave s w r st
  | HandlerName.handleCustomersBlockByID => some (handleCustomersBlockByID s w r st)
  | HandlerName.handleCustomersUnBlockByID => some (handleCustomersUnBlockByID s w r st)
  | HandlerName.handleCustomersRemoveByID => some (handleCustomersRemoveByID s w r st)

/-- `(*Server).ServeHTTP`, lines 58-60: the router dispatches the request to
the matched handler with the route variables attached; a method mismatch is
answered with 405 and no body, an unmatched path with `http.NotFound`. -/
def ServeHTTP {σ : Type} (s : Server σ) (w : ResponseWriter) (r : Request) (st : σ) :
    Option (ResponseWriter × σ) :=
  match routerMatch Init r.method r.path with
  | RouteMatch.matched h vars => runHandler s h w { r with vars := vars } st
  | RouteMatch.methodMismatch => some (w.WriteHeader http.StatusMethodNotAllowed, st)
  | RouteMatch.notFound => some (http.Error w "404 page not found" http.StatusNotFound, st)

/-- `NewServer` over the services of the repository: the store is the pool,
`now` is the reading of the clock. -/
def NewServer (deps : customers.Deps) (now : Time)
    (decodeToken : String → Except GoError Token)
    (decodeAuth : String → Except GoError (Option security.Auth))
    (decodeCustomerAuth : String → Except GoError (Option customers.CustomerAuth)) :
    Server Pool :=
  { customersSvc :=
      { ByID := customers.ByID
        All := customers.All
        AllActive := customers.AllActive
        Create := customers.Create deps
        RemoveByID := customers.RemoveByID
        BlockByID := customers.BlockByID
        UnBlockByID := customers.UnBlockByID
        TokenForCustomer := customers.TokenForCustomer deps }
    securitySvc :=
      { AuthenticateCusomer := fun pool token =>
          (security.AuthenticateCusomer pool now token, pool) }
    decodeToken := decodeToken
    decodeAuth := decodeAuth
    decodeCustomerAuth := decodeCustomerAuth }

end app

/-! ## Sample data used by the witnesses -/

/-- Dependencies whose "hash" of a password is the password itself and whose
random source delivers 256 bytes `0xab`. -/
def demoDeps : customers.Deps :=
  ⟨fun hash password => hash == password, fun p => Except.ok p, List.replicate 256 171⟩

/-- A database with one customer and no tokens. -/
def demoPool : Pool :=
  { customers := [⟨1, "A", "555", "pw", true, ⟨1700000000, 0, 0⟩⟩], customers_tokens := [],
    queryErr := none, execErr := none, expireDefault := none, nextCustomerID := 2,
    createdDefault := ⟨1700000000, 0, 0⟩ }

/-- A customers service over the trivial store that answers every by-id call
with `one`, every list call with `many` and every login with `tok`. -/
def stubCustomers (one : Option customers.Customer × Option GoError)
    (many : Option (List customers.Customer) × Option GoError)
    (tok : String × Option GoError) : app.CustomersSvc Unit :=
  { ByID := fun st _ => (one, st)
    All := fun st => (many, st)
    AllActive := fun st => (many, st)
    Create := fun st _ => some (one, st)
    RemoveByID := fun st _ => (one, st)
    BlockByID := fun st _ => (one, st)
    UnBlockByID := fun st _ => (one, st)
    TokenForCustomer := fun st _ _ => (tok, st) }

/-- A server over the trivial store whose services answer with fixed results
and whose decoder takes the request body itself as the decoded token. -/
def stubServer (auth : Int × Option GoError)
    (one : Option customers.Customer × Option GoError)
    (many : Option (List customers.Customer) × Option GoError) : app.Server Unit :=
  { customersSvc := stubCustomers one many ("", none)
    securitySvc := { AuthenticateCusomer := fun st _ => (auth, st) }
    decodeToken := fun body => Except.ok ⟨body⟩
    decodeAuth := fun _ => Except.ok none
    decodeCustomerAuth := fun _ => Except.ok none }

/-- The customer of the sample database as the service returns it. -/
def demoCustomer : customers.Customer :=
  { ID := 1, Name := "A", Phone := "555", Active := true, Created := ⟨1700000000, 0, 0⟩ }

/-- The four id-taking handlers, each with the service method it calls. -/
def idHandlers (σ : Type) :
    List ((app.Server σ → σ → Int → (Option customers.Customer × Option GoError) × σ) ×
      (app.Server σ → ResponseWriter → app.Request → σ → ResponseWriter × σ)) :=
  [ (fun s => s.customersSvc.ByID, app.handleGetCustomersByID),
    (fun s => s.customersSvc.BlockByID, app.handleCustomersBlockByID),
    (fun s => s.customersSvc.UnBlockByID, app.handleCustomersUnBlockByID),
    (fun s => s.customersSvc.RemoveByID, app.handleCustomersRemoveByID) ]

/-- The server of the repository over the sample dependencies, with the clock
at 4 November 2026 and a decoder that takes the body itself as the token. -/
def demoServer : app.Server Pool :=
  app.NewServer demoDeps ⟨1793750400, 0, 0⟩ (fun body => Except.ok ⟨body⟩)
    (fun _ => Except.ok none) (fun _ => Except.ok none)

/-- The number a string of decimal digits denotes. -/
def decimalValue (ds : List Char) : Nat :=
  ds.foldl (fun n c => n * 10 + (c.toNat - '0'.toNat)) 0

/-- The string is a base-10 integer in the signed 64-bit range: an optional
sign followed by at least one decimal digit, denoting a value between
`-9223372036854775808` and `9223372036854775807`. -/
def IsInt64Decimal (s : String) : Prop :=
  ∃ (sign ds : List Char), s.toList = sign ++ ds ∧
    (sign = [] ∨ sign = ['+'] ∨ sign = ['-']) ∧ ds ≠ [] ∧
    (∀ c ∈ ds, '0' ≤ c ∧ c ≤ '9') ∧
    (if sign = ['-'] then decimalValue ds ≤ 2 ^ 63 else decimalValue ds < 2 ^ 63)

/-- A customers service that records the name of every method called on it. -/
def spyCustomers : app.CustomersSvc (List String) :=
  { ByID := fun log _ => ((none, none), log ++ ["ByID"])
    All := fun log => ((none, none), log ++ ["All"])
    AllActive := fun log => ((none, none), log ++ ["AllActive"])
    Create := fun log _ => some ((none, none), log ++ ["Create"])
    RemoveByID := fun log _ => ((none, none), log ++ ["RemoveByID"])
    BlockByID := fun log _ => ((none, none), log ++ ["BlockByID"])
    UnBlockByID := fun log _ => ((none, none), log ++ ["UnBlockByID"])
    TokenForCustomer := fun log _ _ => (("", none), log ++ ["TokenForCustomer"]) }

/-- A server around `spyCustomers`. -/
def spyServer : app.Server (List String) :=
  { customersSvc := spyCustomers
    securitySvc := { AuthenticateCusomer := fun log _ => ((0, none), log) }
    decodeToken := fun body => Except.ok ⟨body⟩
    decodeAuth := fun _ => Except.ok none
    decodeCustomerAuth := fun _ => Except.ok none }

/-- The `isSpace` of `encoding/json`: the characters its scanner skips before a
value. -/
def json.isSpace (c : Char) : Bool :=
  c == ' ' || c == '\t' || c == '\r' || c == '\n'

/-- The first JSON value in the body is the literal `null`: after leading white
space the body reads `null`.  The decoder takes one value from the stream, so
what follows the literal does not matter. -/
def json.startsWithNull (body : String) : Bool :=
  (body.toList.dropWhile json.isSpace).take 4 == ['n', 'u', 'l', 'l']

/-- `json.NewDecoder(r.Body).Decode(&v)` for a nil pointer `v *T`, as
`encoding/json` documents it: when the first value of the body is the JSON
literal `null` it is accepted without error and leaves the pointer nil
(`none`); every other body is decoded into a fresh `T` by `decodeValue`, and the
pointer is set to it when that succeeds. -/
def json.DecodePointer {α : Type} (decodeValue : String → Except GoError α) (body : String) :
    Except GoError (Option α) :=
  if json.startsWithNull body then Except.ok none
  else
    match decodeValue body with
    | Except.error e => Except.error e
    | Except.ok v => Except.ok (some v)

/-- The server of the repository with its two pointer decoders following
`json.DecodePointer`. -/
def pointerServer (deps : customers.Deps) (now : Time)
    (decodeToken : String → Except GoError app.Token)
    (decodeAuthValue : String → Except GoError security.Auth)
    (decodeCustomerAuthValue : String → Except GoError customers.CustomerAuth) :
    app.Server Pool :=
  app.NewServer deps now decodeToken (json.DecodePointer decodeAuthValue)
    (json.DecodePointer decodeCustomerAuthValue)

/-- The sample database with two tokens of customer 1: `ab`, valid until
January 2027, and `cd`, expired since November 2023. -/
def demoTokens : Pool :=
  { demoPool with customers_tokens :=
      [⟨"ab", 1, some ⟨1800000000, 0, 0⟩⟩, ⟨"cd", 1, some ⟨1700000000, 0, 0⟩⟩] }

/-- The handler set the status exactly once (one `WriteHeader`, explicit or
implied by the first `Write`) and wrote a body exactly once (one `Write`). -/
def WroteOnce (w : ResponseWriter) : Prop :=
  w.writeHeaderCalls = 1 ∧ w.writeCalls = 1

instance (w : ResponseWriter) : Decidable (WroteOnce w) := by
  unfold WroteOnce; exact inferInstance

/-! ## Theorems -/

theorem find_token_of_key (pool : Pool) (hkey : TokenIsKey pool) (row : TokenRow)
    (hrow : row ∈ pool.customers_tokens) :
    pool.customers_tokens.find? (fun r => r.token == row.token) = some row := by
  cases hfind : pool.customers_tokens.find? (fun r => r.token == row.token) with
  | none =>
    have h := List.find?_eq_none.mp hfind row hrow
    simp at h
  | some r =>
    have hmem : r ∈ pool.customers_tokens := List.mem_of_find?_eq_some hfind
    have hp := List.find?_some hfind
    have htok : r.token = row.token := by simpa using hp
    rw [hkey r hmem row hrow htok]

theorem wrap64_of_fits (x : Int) (h₁ : -(2 : Int) ^ 63 ≤ x) (h₂ : x < 2 ^ 63) : wrap64 x = x := by
  unfold wrap64
  have h : (x + 2 ^ 63) % 2 ^ 64 = x + 2 ^ 63 := Int.emod_eq_of_lt (by omega) (by omega)
  omega

theorem wrap64_add_wrap64 (a b : Int) : wrap64 (wrap64 a + b) = wrap64 (a + b) := by
  unfold wrap64
  have h : (a + 2 ^ 63) % 2 ^ 64 - 2 ^ 63 + b + 2 ^ 63 = (a + 2 ^ 63) % 2 ^ 64 + b := by ring
  rw [h, Int.emod_add_emod]
  have h' : a + 2 ^ 63 + b = a + b + 2 ^ 63 := by ring
  rw [h']

theorem UnixNano_of_fits (t : Time) (h : t.fitsInt64) : t.UnixNano = t.nanos := by
  unfold Time.UnixNano
  rw [wrap64_add_wrap64]
  exact wrap64_of_fits _ h.1 h.2

/-- C1. For every current instant `now` and every row of `customers_tokens`
whose expire instant is strictly before `now` in the comparison the code
performs (on the `int64` `UnixNano` values), `AuthenticateCusomer` called with
that row's token never returns a nil error; when the query itself is served it
returns `ErrExpired` with id `-1`. -/
theorem C1_expired_row_never_authenticates (pool : Pool) (now : Time) (row : TokenRow)
    (expire : Time) (hkey : TokenIsKey pool) (hrow : row ∈ pool.customers_tokens)
    (hexpire : row.expire = some expire) (hbefore : expire.UnixNano < now.UnixNano) :
    (security.AuthenticateCusomer pool now row.token).2 ≠ none ∧
    (pool.queryErr = none →
      security.AuthenticateCusomer pool now row.token = (-1, some security.ErrExpired)) := by
  have hfind := find_token_of_key pool hkey row hrow
  cases hq : pool.queryErr with
  | some e => simp [security.AuthenticateCusomer, security.scanTokenRow, hq]
  | none =>
    simp [security.AuthenticateCusomer, security.scanTokenRow, hq, hfind, hexpire, hbefore]

/-- An expired token in a one-row table, checked in November 2026. -/
theorem C1_expired_row_never_authenticates_witness :
    (security.AuthenticateCusomer
        { customers := [], customers_tokens := [⟨"ab", 7, some ⟨1700000000, 0, 0⟩⟩],
          queryErr := none, execErr := none, expireDefault := none, nextCustomerID := 2,
          createdDefault := ⟨1700000000, 0, 0⟩ }
        ⟨1793750400, 5, 0⟩ "ab").2 ≠ none ∧
    ((none : Option GoError) = none →
      security.AuthenticateCusomer
        { customers := [], customers_tokens := [⟨"ab", 7, some ⟨1700000000, 0, 0⟩⟩],
          queryErr := none, execErr := none, expireDefault := none, nextCustomerID := 2,
          createdDefault := ⟨1700000000, 0, 0⟩ }
        ⟨1793750400, 5, 0⟩ "ab" = (-1, some security.ErrExpired)) :=
  C1_expired_row_never_authenticates
    { customers := [], customers_tokens := [⟨"ab", 7, some ⟨1700000000, 0, 0⟩⟩],
      queryErr := none, execErr := none, expireDefault := none, nextCustomerID := 2,
          createdDefault := ⟨1700000000, 0, 0⟩ }
    ⟨1793750400, 5, 0⟩ ⟨"ab", 7, some ⟨1700000000, 0, 0⟩⟩ ⟨1700000000, 0, 0⟩
    (by intro r₁ h₁ r₂ h₂ _; simp at h₁ h₂; rw [h₁, h₂])
    (by simp) rfl (by decide)

/-- C2 fails as stated: a token whose expire instant lies in the year 2300 is
not expired in November 2026, yet the `int64` nanosecond count of the year 2300
wraps to a negative number and the token is reported expired. -/
theorem C2_counterexample :
    (⟨1793750400, 0, 0⟩ : Time).nanos ≤ (⟨10413792000, 0, 0⟩ : Time).nanos ∧
    security.AuthenticateCusomer
        { customers := [], customers_tokens := [⟨"ab", 7, some ⟨10413792000, 0, 0⟩⟩],
          queryErr := none, execErr := none, expireDefault := none, nextCustomerID := 2,
          createdDefault := ⟨1700000000, 0, 0⟩ }
        ⟨1793750400, 0, 0⟩ "ab" = (-1, some security.ErrExpired) ∧
    security.AuthenticateCusomer
        { customers := [], customers_tokens := [⟨"ab", 7, some ⟨10413792000, 0, 0⟩⟩],
          queryErr := none, execErr := none, expireDefault := none, nextCustomerID := 2,
          createdDefault := ⟨1700000000, 0, 0⟩ }
        ⟨1793750400, 0, 0⟩ "ab" ≠ (7, none) := by
  refine ⟨by decide, by decide, by decide⟩

/-- C2 (amended). For every token that matches a row `(customer_id, expire)` of
`customers_tokens`, when the query is served and both the current instant and
the expire instant have a nanosecond count that fits `int64`, and the current
instant is not after expire, `AuthenticateCusomer` returns exactly that row's
`customer_id` together with a nil error. -/
theorem C2_live_token_authenticates (pool : Pool) (now : Time) (row : TokenRow)
    (expire : Time) (hquery : pool.queryErr = none) (hkey : TokenIsKey pool)
    (hrow : row ∈ pool.customers_tokens) (hexpire : row.expire = some expire)
    (hnow : now.fitsInt64) (hfits : expire.fitsInt64) (hle : now.nanos ≤ expire.nanos) :
    security.AuthenticateCusomer pool now row.token = (row.customer_id, none) := by
  have hfind := find_token_of_key pool hkey row hrow
  have hnot : ¬ now.UnixNano > expire.UnixNano := by
    rw [UnixNano_of_fits now hnow, UnixNano_of_fits expire hfits]
    omega
  simp [security.AuthenticateCusomer, security.scanTokenRow, hquery, hfind, hexpire, hnot]

/-- A token that expires at the very instant of the check. -/
theorem C2_live_token_authenticates_witness :
    security.AuthenticateCusomer
        { customers := [], customers_tokens := [⟨"ab", 7, some ⟨1793750400, 5, 0⟩⟩],
          queryErr := none, execErr := none, expireDefault := none, nextCustomerID := 2,
          createdDefault := ⟨1700000000, 0, 0⟩ }
        ⟨1793750400, 5, 0⟩ "ab" = (7, none) :=
  C2_live_token_authenticates
    { customers := [], customers_tokens := [⟨"ab", 7, some ⟨1793750400, 5, 0⟩⟩],
      queryErr := none, execErr := none, expireDefault := none, nextCustomerID := 2,
          createdDefault := ⟨1700000000, 0, 0⟩ }
    ⟨1793750400, 5, 0⟩ ⟨"ab", 7, some ⟨1793750400, 5, 0⟩⟩ ⟨1793750400, 5, 0⟩
    rfl (by intro r₁ h₁ r₂ h₂ _; simp at h₁ h₂; rw [h₁, h₂])
    (by simp) rfl (by decide) (by decide) (by decide)

/-- C3 (the code at the failing inputs). Whatever error makes the token query
fail (a driver error, a cancelled context), `AuthenticateCusomer` returns
`ErrNoSuchUser`, the same value it returns when no row matches; a row whose
expire is `NULL` and cannot be scanned gives `ErrNoSuchUser` as well.  It never
returns `ErrInternal`. -/
theorem C3_every_lookup_failure_is_ErrNoSuchUser (pool : Pool) (now : Time) (token : String)
    (e : GoError) (cid : Int) :
    security.AuthenticateCusomer { pool with queryErr := some e } now token
      = (0, some security.ErrNoSuchUser) ∧
    security.AuthenticateCusomer
      { pool with queryErr := none, customers_tokens := [⟨token, cid, none⟩] } now token
      = (0, some security.ErrNoSuchUser) ∧
    security.AuthenticateCusomer { pool with queryErr := none, customers_tokens := [] } now token
      = (0, some security.ErrNoSuchUser) ∧
    (security.AuthenticateCusomer pool now token).2 ≠ some security.ErrInternal := by
  refine ⟨by simp [security.AuthenticateCusomer, security.scanTokenRow],
    by simp [security.AuthenticateCusomer, security.scanTokenRow],
    by simp [security.AuthenticateCusomer, security.scanTokenRow], ?_⟩
  unfold security.AuthenticateCusomer
  cases security.scanTokenRow pool token with
  | error _ => simp [security.ErrNoSuchUser, security.ErrInternal]
  | ok p =>
    obtain ⟨id, t⟩ := p
    by_cases h : now.UnixNano > t.UnixNano <;>
      simp [h, security.ErrExpired, security.ErrInternal]

theorem find_phone_none (pool : Pool) (phone : String)
    (h : ∀ r ∈ pool.customers, r.phone ≠ phone) :
    pool.customers.find? (fun r => r.phone == phone) = none := by
  rw [List.find?_eq_none]
  intro r hr
  simpa using h r hr

theorem find_phone_some (pool : Pool) (phone : String)
    (h : ∃ r ∈ pool.customers, r.phone = phone) :
    ∃ r, pool.customers.find? (fun r => r.phone == phone) = some r ∧
      r ∈ pool.customers ∧ r.phone = phone := by
  cases hfind : pool.customers.find? (fun r => r.phone == phone) with
  | none =>
    obtain ⟨r, hr, hp⟩ := h
    have := List.find?_eq_none.mp hfind r hr
    simp [hp] at this
  | some r =>
    exact ⟨r, rfl, List.mem_of_find?_eq_some hfind, by simpa using List.find?_some hfind⟩

/-- C4. Non-enumeration: when the query is served, a call whose phone matches
no `customers` row and a call whose phone matches a row but whose password
fails the hash comparison both return the empty token and the same error value
`ErrInvalidPassword`, and neither inserts a row (the pool is unchanged). -/
theorem C4_unknown_phone_and_wrong_password_agree (deps : customers.Deps) (pool : Pool)
    (phone₁ password₁ phone₂ password₂ : String)
    (hquery : pool.queryErr = none)
    (hunknown : ∀ r ∈ pool.customers, r.phone ≠ phone₁)
    (hknown : ∃ r ∈ pool.customers, r.phone = phone₂)
    (hwrong : ∀ r ∈ pool.customers, r.phone = phone₂ →
      deps.bcryptCompare r.password password₂ = false) :
    customers.TokenForCustomer deps pool phone₁ password₁
      = (("", some customers.ErrInvalidPassword), pool) ∧
    customers.TokenForCustomer deps pool phone₂ password₂
      = (("", some customers.ErrInvalidPassword), pool) := by
  constructor
  · simp [customers.TokenForCustomer, customers.scanIDAndHash, hquery,
      find_phone_none pool phone₁ hunknown]
  · obtain ⟨r, hfind, hmem, hphone⟩ := find_phone_some pool phone₂ hknown
    simp [customers.TokenForCustomer, customers.scanIDAndHash, hquery, hfind,
      hwrong r hmem hphone]

/-- One registered customer; a stranger's phone and a wrong password. -/
theorem C4_unknown_phone_and_wrong_password_agree_witness :
    customers.TokenForCustomer
        ⟨fun hash password => hash == password, fun p => Except.ok p, []⟩
        { customers := [⟨1, "A", "555", "pw", true, ⟨0, 0, 0⟩⟩], customers_tokens := [],
          queryErr := none, execErr := none, expireDefault := none, nextCustomerID := 2,
          createdDefault := ⟨1700000000, 0, 0⟩ }
        "777" "pw"
      = (("", some customers.ErrInvalidPassword),
        { customers := [⟨1, "A", "555", "pw", true, ⟨0, 0, 0⟩⟩], customers_tokens := [],
          queryErr := none, execErr := none, expireDefault := none, nextCustomerID := 2,
          createdDefault := ⟨1700000000, 0, 0⟩ }) ∧
    customers.TokenForCustomer
        ⟨fun hash password => hash == password, fun p => Except.ok p, []⟩
        { customers := [⟨1, "A", "555", "pw", true, ⟨0, 0, 0⟩⟩], customers_tokens := [],
          queryErr := none, execErr := none, expireDefault := none, nextCustomerID := 2,
          createdDefault := ⟨1700000000, 0, 0⟩ }
        "555" "guess"
      = (("", some customers.ErrInvalidPassword),
        { customers := [⟨1, "A", "555", "pw", true, ⟨0, 0, 0⟩⟩], customers_tokens := [],
          queryErr := none, execErr := none, expireDefault := none, nextCustomerID := 2,
          createdDefault := ⟨1700000000, 0, 0⟩ }) :=
  C4_unknown_phone_and_wrong_password_agree
    ⟨fun hash password => hash == password, fun p => Except.ok p, []⟩
    { customers := [⟨1, "A", "555", "pw", true, ⟨0, 0, 0⟩⟩], customers_tokens := [],
      queryErr := none, execErr := none, expireDefault := none, nextCustomerID := 2,
          createdDefault := ⟨1700000000, 0, 0⟩ }
    "777" "pw" "555" "guess" rfl
    (by intro r hr; simp at hr; subst hr; decide)
    ⟨⟨1, "A", "555", "pw", true, ⟨0, 0, 0⟩⟩, by simp, rfl⟩
    (by intro r hr _; simp at hr; subst hr; decide)

theorem hex_length (src : List Byte) : (hex.EncodeToString src).length = 2 * src.length := by
  unfold hex.EncodeToString
  rw [String.length_mk]
  induction src with
  | nil => rfl
  | cons v vs ih =>
    simp only [List.flatMap_cons, List.length_append, List.length_cons, List.length_nil, ih]
    omega

theorem hex_chars (src : List Byte) (c : Char) (hc : c ∈ (hex.EncodeToString src).toList) :
    c ∈ hextable := by
  unfold hex.EncodeToString at hc
  obtain ⟨v, _, hv⟩ := List.mem_flatMap.mp hc
  simp only [List.mem_cons, List.mem_singleton, List.not_mem_nil, or_false] at hv
  rcases hv with hv | hv <;> (rw [hv]; exact List.get_mem _ _ _)

theorem hextable_range (c : Char) (hc : c ∈ hextable) :
    ('0' ≤ c ∧ c ≤ '9') ∨ ('a' ≤ c ∧ c ≤ 'f') := by
  simp only [hextable, List.mem_cons, List.mem_singleton, List.not_mem_nil, or_false] at hc
  rcases hc with h | h | h | h | h | h | h | h | h | h | h | h | h | h | h | h <;>
    (subst h; decide)

theorem rand_Read_full (avail : List Byte) (len : Nat)
    (h : ¬ ((rand.Read avail len).2.1 ≠ (rand.Read avail len).1.length ∨
      (rand.Read avail len).2.2 ≠ none)) :
    (rand.Read avail len).1 = avail.take len ∧ (avail.take len).length = len := by
  simp only [rand.Read] at h ⊢
  have hle : (avail.take len).length ≤ len := by simp [List.length_take]
  by_cases hlt : (avail.take len).length < len
  · simp [hlt] at h
    rw [List.length_take] at hlt
    omega
  · have heq : (avail.take len).length = len := by omega
    refine ⟨?_, heq⟩
    rw [heq]
    simp

/-- C5. Whenever `TokenForCustomer` returns a nil error, the returned token is
the lowercase hexadecimal encoding of the 256 bytes read from the random
source, it has exactly 512 characters, each in `[0-9a-f]`, and that same string
is the token of the one row appended to `customers_tokens`, together with the id
of the customer row the phone query matched. -/
theorem C5_issued_token_is_hex_of_random_bytes (deps : customers.Deps) (pool pool' : Pool)
    (phone password token : String)
    (hok : customers.TokenForCustomer deps pool phone password = ((token, none), pool')) :
    token = hex.EncodeToString (deps.random.take 256) ∧
    (deps.random.take 256).length = 256 ∧
    token.length = 512 ∧
    (∀ c ∈ token.toList, ('0' ≤ c ∧ c ≤ '9') ∨ ('a' ≤ c ∧ c ≤ 'f')) ∧
    ∃ r, pool.customers.find? (fun r => r.phone == phone) = some r ∧
      pool'.customers_tokens = pool.customers_tokens ++ [⟨token, r.id, pool.expireDefault⟩] ∧
      pool'.customers = pool.customers := by
  unfold customers.TokenForCustomer at hok
  cases hscan : customers.scanIDAndHash pool phone with
  | error err =>
    rw [hscan] at hok
    by_cases he : err = pgx.ErrNoRows <;> simp [he] at hok
  | ok p =>
    obtain ⟨id, hash⟩ := p
    rw [hscan] at hok
    by_cases hcmp : deps.bcryptCompare hash password
    · simp only [hcmp, Bool.not_true, Bool.false_eq_true, if_false] at hok
      by_cases hrd : (rand.Read deps.random 256).2.1 ≠ (rand.Read deps.random 256).1.length ∨
          (rand.Read deps.random 256).2.2 ≠ none
      · simp [hrd] at hok
      · obtain ⟨hbuf, hlen⟩ := rand_Read_full deps.random 256 hrd
        simp only [hrd, if_false] at hok
        unfold customers.insertToken at hok
        cases hexec : pool.execErr with
        | some e => simp [hexec] at hok
        | none =>
          simp only [hexec, Prod.mk.injEq, and_true] at hok
          obtain ⟨htok, hpool⟩ := hok
          rw [hbuf] at htok hpool
          have hfindrow : ∃ r, pool.customers.find? (fun r => r.phone == phone) = some r ∧
              r.id = id := by
            unfold customers.scanIDAndHash at hscan
            cases hq : pool.queryErr with
            | some e => simp [hq] at hscan
            | none =>
              cases hf : pool.customers.find? (fun r => r.phone == phone) with
              | none => simp [hq, hf] at hscan
              | some r =>
                simp [hq, hf] at hscan
                exact ⟨r, rfl, hscan.1⟩
          obtain ⟨r, hr, hid⟩ := hfindrow
          refine ⟨htok.symm, hlen, ?_, ?_, r, hr, ?_, ?_⟩
          · rw [← htok, hex_length, hlen]
          · intro c hc
            rw [← htok] at hc
            exact hextable_range c (hex_chars _ c hc)
          · rw [← hpool, hid, htok]
          · rw [← hpool]
    · simp [hcmp] at hok

set_option maxRecDepth 100000 in
/-- A successful login against the sample database. -/
theorem C5_issued_token_is_hex_of_random_bytes_witness :
    customers.TokenForCustomer demoDeps demoPool "555" "pw"
      = ((hex.EncodeToString (List.replicate 256 171), none),
         { demoPool with customers_tokens :=
            [⟨hex.EncodeToString (List.replicate 256 171), 1, none⟩] }) ∧
    (hex.EncodeToString (List.replicate 256 171)).length = 512 :=
  ⟨by rfl,
   (C5_issued_token_is_hex_of_random_bytes demoDeps demoPool
      { demoPool with customers_tokens :=
          [⟨hex.EncodeToString (List.replicate 256 171), 1, none⟩] }
      "555" "pw" (hex.EncodeToString (List.replicate 256 171)) (by rfl)).2.2.1⟩

/-- The four branches of `handleValidateToken` (lines 342-358) for a security
service that answers `(id, er)`, whatever service that is, on a writer that
accepts the write.  The last branch is the `else` of line 354. -/
theorem handleValidateToken_branches {σ : Type} (s : app.Server σ) (r : app.Request) (st st' : σ)
    (token : app.Token) (id : Int) (er : Option GoError)
    (hdecode : s.decodeToken r.body = Except.ok token)
    (hauth : s.securitySvc.AuthenticateCusomer st token.Token = ((id, er), st')) :
    (er = none →
      (app.handleValidateToken s (ResponseWriter.fresh false) r st).1.status = some 200 ∧
      (app.handleValidateToken s (ResponseWriter.fresh false) r st).1.body
        = [Chunk.json (JSON.obj [("status", JSONLeaf.str "ok"), ("customerId", JSONLeaf.num id)])] ∧
      (app.handleValidateToken s (ResponseWriter.fresh false) r st).1.sentHeader
        = [("Content-Type", "application/json")]) ∧
    (er = some security.ErrNoSuchUser →
      (app.handleValidateToken s (ResponseWriter.fresh false) r st).1.status = some 404 ∧
      (app.handleValidateToken s (ResponseWriter.fresh false) r st).1.body
        = [Chunk.json (JSON.obj
            [("status", JSONLeaf.str "fail"), ("reason", JSONLeaf.str "not found")])] ∧
      (app.handleValidateToken s (ResponseWriter.fresh false) r st).1.sentHeader
        = [("Content-Type", "application/json")]) ∧
    (er = some security.ErrExpired →
      (app.handleValidateToken s (ResponseWriter.fresh false) r st).1.status = some 400 ∧
      (app.handleValidateToken s (ResponseWriter.fresh false) r st).1.body
        = [Chunk.json (JSON.obj
            [("status", JSONLeaf.str "fail"), ("reason", JSONLeaf.str "expired")])] ∧
      (app.handleValidateToken s (ResponseWriter.fresh false) r st).1.sentHeader
        = [("Content-Type", "application/json")]) ∧
    (er ≠ none → er ≠ some security.ErrNoSuchUser → er ≠ some security.ErrExpired →
      (app.handleValidateToken s (ResponseWriter.fresh false) r st).1.status = some 500 ∧
      (app.handleValidateToken s (ResponseWriter.fresh false) r st).1.body
        = [Chunk.text "Internal Server Error\n"]) := by
  refine ⟨?_, ?_, ?_, ?_⟩
  · intro h
    subst h
    simp [app.handleValidateToken, hdecode, hauth, app.MarshalResponceOk, app.MarshalResponceFail,
      ResponseWriter.fresh, ResponseWriter.SetHeader, ResponseWriter.WriteHeader,
      ResponseWriter.Write, Header.Set]
  · intro h
    subst h
    simp [app.handleValidateToken, hdecode, hauth, app.MarshalResponceOk, app.MarshalResponceFail,
      ResponseWriter.fresh, ResponseWriter.SetHeader, ResponseWriter.WriteHeader,
      ResponseWriter.Write, Header.Set]
  · intro h
    subst h
    simp [app.handleValidateToken, hdecode, hauth, app.MarshalResponceOk, app.MarshalResponceFail,
      ResponseWriter.fresh, ResponseWriter.SetHeader, ResponseWriter.WriteHeader,
      ResponseWriter.Write, Header.Set, security.ErrExpired, security.ErrNoSuchUser]
  · intro h₁ h₂ h₃
    simp [app.handleValidateToken, hdecode, hauth, h₁, h₂, h₃, http.Error, http.StatusText,
      http.StatusInternalServerError,
      ResponseWriter.fresh, ResponseWriter.SetHeader, ResponseWriter.WriteHeader,
      ResponseWriter.Write, Header.Set]

/-- The errors `AuthenticateCusomer` returns: nil, `ErrNoSuchUser` or
`ErrExpired`, and no other. -/
theorem AuthenticateCusomer_errors (pool : Pool) (now : Time) (token : String) :
    (security.AuthenticateCusomer pool now token).2 = none ∨
    (security.AuthenticateCusomer pool now token).2 = some security.ErrNoSuchUser ∨
    (security.AuthenticateCusomer pool now token).2 = some security.ErrExpired := by
  unfold security.AuthenticateCusomer
  cases security.scanTokenRow pool token with
  | error e => exact Or.inr (Or.inl rfl)
  | ok p =>
    obtain ⟨id, t⟩ := p
    by_cases h : now.UnixNano > t.UnixNano
    · simp [h]
    · simp [h]

/-- C6. For every decodable request body, on a writer that accepts the write,
the server's `handleValidateToken` maps the result `(id, er)` of
`AuthenticateCusomer` as follows: nil error gives status 200 and the body
`{status:"ok", customerId:id}`; `ErrNoSuchUser` gives 404 and
`{status:"fail", reason:"not found"}`; `ErrExpired` gives 400 and
`{status:"fail", reason:"expired"}`, each with content type
`application/json`.  These three are all the results there are, so the case of
any other error (status 500 with no body) never arises with the server's
security service. -/
theorem C6_validate_token_mapping (deps : customers.Deps) (now : Time)
    (decodeToken : String → Except GoError app.Token)
    (decodeAuth : String → Except GoError (Option security.Auth))
    (decodeCustomerAuth : String → Except GoError (Option customers.CustomerAuth))
    (r : app.Request) (pool : Pool) (token : app.Token)
    (hdecode : decodeToken r.body = Except.ok token) :
    ((security.AuthenticateCusomer pool now token.Token).2 = none ∨
      (security.AuthenticateCusomer pool now token.Token).2 = some security.ErrNoSuchUser ∨
      (security.AuthenticateCusomer pool now token.Token).2 = some security.ErrExpired) ∧
    ((security.AuthenticateCusomer pool now token.Token).2 = none →
      (app.handleValidateToken (app.NewServer deps now decodeToken decodeAuth decodeCustomerAuth)
          (ResponseWriter.fresh false) r pool).1.status = some 200 ∧
      (app.handleValidateToken (app.NewServer deps now decodeToken decodeAuth decodeCustomerAuth)
          (ResponseWriter.fresh false) r pool).1.body
        = [Chunk.json (JSON.obj [("status", JSONLeaf.str "ok"),
            ("customerId", JSONLeaf.num (security.AuthenticateCusomer pool now token.Token).1)])] ∧
      (app.handleValidateToken (app.NewServer deps now decodeToken decodeAuth decodeCustomerAuth)
          (ResponseWriter.fresh false) r pool).1.sentHeader
        = [("Content-Type", "application/json")]) ∧
    ((security.AuthenticateCusomer pool now token.Token).2 = some security.ErrNoSuchUser →
      (app.handleValidateToken (app.NewServer deps now decodeToken decodeAuth decodeCustomerAuth)
          (ResponseWriter.fresh false) r pool).1.status = some 404 ∧
      (app.handleValidateToken (app.NewServer deps now decodeToken decodeAuth decodeCustomerAuth)
          (ResponseWriter.fresh false) r pool).1.body
        = [Chunk.json (JSON.obj
            [("status", JSONLeaf.str "fail"), ("reason", JSONLeaf.str "not found")])] ∧
      (app.handleValidateToken (app.NewServer deps now decodeToken decodeAuth decodeCustomerAuth)
          (ResponseWriter.fresh false) r pool).1.sentHeader
        = [("Content-Type", "application/json")]) ∧
    ((security.AuthenticateCusomer pool now token.Token).2 = some security.ErrExpired →
      (app.handleValidateToken (app.NewServer deps now decodeToken decodeAuth decodeCustomerAuth)
          (ResponseWriter.fresh false) r pool).1.status = some 400 ∧
      (app.handleValidateToken (app.NewServer deps now decodeToken decodeAuth decodeCustomerAuth)
          (ResponseWriter.fresh false) r pool).1.body
        = [Chunk.json (JSON.obj
            [("status", JSONLeaf.str "fail"), ("reason", JSONLeaf.str "expired")])] ∧
      (app.handleValidateToken (app.NewServer deps now decodeToken decodeAuth decodeCustomerAuth)
          (ResponseWriter.fresh false) r pool).1.sentHeader
        = [("Content-Type", "application/json")]) ∧
    ((security.AuthenticateCusomer pool now token.Token).2 ≠ none →
      (security.AuthenticateCusomer pool now token.Token).2 ≠ some security.ErrNoSuchUser →
      (security.AuthenticateCusomer pool now token.Token).2 ≠ some security.ErrExpired →
      (app.handleValidateToken (app.NewServer deps now decodeToken decodeAuth decodeCustomerAuth)
          (ResponseWriter.fresh false) r pool).1.status = some 500 ∧
      (app.handleValidateToken (app.NewServer deps now decodeToken decodeAuth decodeCustomerAuth)
          (ResponseWriter.fresh false) r pool).1.body = []) := by
  have hall := AuthenticateCusomer_errors pool now token.Token
  have key := handleValidateToken_branches
    (app.NewServer deps now decodeToken decodeAuth decodeCustomerAuth) r pool pool token
    (security.AuthenticateCusomer pool now token.Token).1
    (security.AuthenticateCusomer pool now token.Token).2 hdecode rfl
  refine ⟨hall, key.1, key.2.1, key.2.2.1, ?_⟩
  intro h₁ h₂ h₃
  rcases hall with h | h | h
  · exact absurd h h₁
  · exact absurd h h₂
  · exact absurd h h₃

/-- The three results at the sample server: a live token of customer 1, an
unknown token and an expired token. -/
theorem C6_validate_token_mapping_witness :
    ((app.handleValidateToken demoServer (ResponseWriter.fresh false)
        ⟨"POST", "/api/customers/token/validate", "ab", []⟩ demoTokens).1.status = some 200 ∧
      (app.handleValidateToken demoServer (ResponseWriter.fresh false)
        ⟨"POST", "/api/customers/token/validate", "ab", []⟩ demoTokens).1.body
        = [Chunk.json (JSON.obj [("status", JSONLeaf.str "ok"), ("customerId", JSONLeaf.num 1)])]) ∧
    ((app.handleValidateToken demoServer (ResponseWriter.fresh false)
        ⟨"POST", "/api/customers/token/validate", "zz", []⟩ demoTokens).1.status = some 404 ∧
      (app.handleValidateToken demoServer (ResponseWriter.fresh false)
        ⟨"POST", "/api/customers/token/validate", "zz", []⟩ demoTokens).1.body
        = [Chunk.json (JSON.obj
            [("status", JSONLeaf.str "fail"), ("reason", JSONLeaf.str "not found")])]) ∧
    ((app.handleValidateToken demoServer (ResponseWriter.fresh false)
        ⟨"POST", "/api/customers/token/validate", "cd", []⟩ demoTokens).1.status = some 400 ∧
      (app.handleValidateToken demoServer (ResponseWriter.fresh false)
        ⟨"POST", "/api/customers/token/validate", "cd", []⟩ demoTokens).1.body
        = [Chunk.json (JSON.obj
            [("status", JSONLeaf.str "fail"), ("reason", JSONLeaf.str "expired")])]) :=
  ⟨⟨((C6_validate_token_mapping demoDeps ⟨1793750400, 0, 0⟩ (fun body => Except.ok ⟨body⟩)
        (fun _ => Except.ok none) (fun _ => Except.ok none)
        ⟨"POST", "/api/customers/token/validate", "ab", []⟩ demoTokens ⟨"ab"⟩ rfl).2.1
        (by decide)).1,
     ((C6_validate_token_mapping demoDeps ⟨1793750400, 0, 0⟩ (fun body => Except.ok ⟨body⟩)
        (fun _ => Except.ok none) (fun _ => Except.ok none)
        ⟨"POST", "/api/customers/token/validate", "ab", []⟩ demoTokens ⟨"ab"⟩ rfl).2.1
        (by decide)).2.1⟩,
   ⟨((C6_validate_token_mapping demoDeps ⟨1793750400, 0, 0⟩ (fun body => Except.ok ⟨body⟩)
        (fun _ => Except.ok none) (fun _ => Except.ok none)
        ⟨"POST", "/api/customers/token/validate", "zz", []⟩ demoTokens ⟨"zz"⟩ rfl).2.2.1
        (by decide)).1,
     ((C6_validate_token_mapping demoDeps ⟨1793750400, 0, 0⟩ (fun body => Except.ok ⟨body⟩)
        (fun _ => Except.ok none) (fun _ => Except.ok none)
        ⟨"POST", "/api/customers/token/validate", "zz", []⟩ demoTokens ⟨"zz"⟩ rfl).2.2.1
        (by decide)).2.1⟩,
   ⟨((C6_validate_token_mapping demoDeps ⟨1793750400, 0, 0⟩ (fun body => Except.ok ⟨body⟩)
        (fun _ => Except.ok none) (fun _ => Except.ok none)
        ⟨"POST", "/api/customers/token/validate", "cd", []⟩ demoTokens ⟨"cd"⟩ rfl).2.2.2.1
        (by decide)).1,
     ((C6_validate_token_mapping demoDeps ⟨1793750400, 0, 0⟩ (fun body => Except.ok ⟨body⟩)
        (fun _ => Except.ok none) (fun _ => Except.ok none)
        ⟨"POST", "/api/customers/token/validate", "cd", []⟩ demoTokens ⟨"cd"⟩ rfl).2.2.2.1
        (by decide)).2.1⟩⟩

theorem handleWithID_spec {σ : Type}
    (call : σ → Int → (Option customers.Customer × Option GoError) × σ)
    (broken : Bool) (r : app.Request) (st st' : σ) (idParam : String) (id : Int)
    (item : Option customers.Customer) (err : Option GoError)
    (hvar : r.vars.lookup "id" = some idParam)
    (hparse : strconv.ParseInt idParam = (id, none))
    (hcall : call st id = ((item, err), st')) :
    (errorsIs err customers.ErrNotFound = true →
      (app.handleWithID call (ResponseWriter.fresh broken) r st).1.status = some 404) ∧
    (err ≠ none → errorsIs err customers.ErrNotFound = false →
      (app.handleWithID call (ResponseWriter.fresh broken) r st).1.status = some 500) ∧
    (∀ data, err = none → json.MarshalCustomer item = Except.ok data → broken = false →
      (app.handleWithID call (ResponseWriter.fresh broken) r st).1.status = some 200 ∧
      (app.handleWithID call (ResponseWriter.fresh broken) r st).1.sentHeader.lookup "Content-Type"
        = some "application/json" ∧
      (app.handleWithID call (ResponseWriter.fresh broken) r st).1.body = data) := by
  refine ⟨?_, ?_, ?_⟩
  · intro h
    cases broken <;>
    simp [app.handleWithID, hvar, hparse, hcall, h, http.Error, http.StatusText,
      http.StatusNotFound, ResponseWriter.fresh, ResponseWriter.SetHeader,
      ResponseWriter.WriteHeader, ResponseWriter.Write, Header.Set]
  · intro h₁ h₂
    cases broken <;>
    simp [app.handleWithID, hvar, hparse, hcall, h₁, h₂, http.Error, http.StatusText,
      http.StatusInternalServerError, ResponseWriter.fresh, ResponseWriter.SetHeader,
      ResponseWriter.WriteHeader, ResponseWriter.Write, Header.Set]
  · intro data h₁ h₂ h₃
    subst h₁ h₃
    simp [app.handleWithID, hvar, hparse, hcall, errorsIs, app.writeJSON, h₂,
      ResponseWriter.fresh, ResponseWriter.SetHeader,
      ResponseWriter.WriteHeader, ResponseWriter.Write, Header.Set, List.lookup]

/-- C7. For each of the id-taking handlers (`handleGetCustomersByID`,
`handleCustomersBlockByID`, `handleCustomersUnBlockByID`,
`handleCustomersRemoveByID`) and every id that parses: if the service returns
`ErrNotFound` (as `errors.Is` judges it) the status is 404; if it returns any
other error the status is 500; if it returns a customer with a nil error, the
customer has a JSON encoding and the writer accepts the write, the status is
200, the `Content-Type` header is `application/json` and the body is that JSON
encoding. -/
theorem C7_id_handlers_translate_service_result {σ : Type} (s : app.Server σ)
    (p : (app.Server σ → σ → Int → (Option customers.Customer × Option GoError) × σ) ×
      (app.Server σ → ResponseWriter → app.Request → σ → ResponseWriter × σ))
    (hp : p ∈ idHandlers σ)
    (broken : Bool) (r : app.Request) (st st' : σ) (idParam : String) (id : Int)
    (item : Option customers.Customer) (err : Option GoError)
    (hvar : r.vars.lookup "id" = some idParam)
    (hparse : strconv.ParseInt idParam = (id, none))
    (hcall : p.1 s st id = ((item, err), st')) :
    (errorsIs err customers.ErrNotFound = true →
      (p.2 s (ResponseWriter.fresh broken) r st).1.status = some 404) ∧
    (err ≠ none → errorsIs err customers.ErrNotFound = false →
      (p.2 s (ResponseWriter.fresh broken) r st).1.status = some 500) ∧
    (∀ c data, err = none → item = some c → json.MarshalCustomer (some c) = Except.ok data →
      broken = false →
      (p.2 s (ResponseWriter.fresh broken) r st).1.status = some 200 ∧
      (p.2 s (ResponseWriter.fresh broken) r st).1.sentHeader.lookup "Content-Type"
        = some "application/json" ∧
      (p.2 s (ResponseWriter.fresh broken) r st).1.body = data) := by
  simp only [idHandlers, List.mem_cons, List.mem_singleton, List.not_mem_nil, or_false] at hp
  rcases hp with h | h | h | h <;> subst h <;>
  · have key := handleWithID_spec _ broken r st st' idParam id item err hvar hparse hcall
    refine ⟨key.1, key.2.1, ?_⟩
    intro c data h₁ h₂ h₃ h₄
    subst h₂
    exact key.2.2 data h₁ h₃ h₄

/-- `GET /customers/1` against the sample database, after routing. -/
theorem C7_id_handlers_translate_service_result_witness :
    (app.handleGetCustomersByID demoServer (ResponseWriter.fresh false)
        ⟨"GET", "/customers/1", "", [("id", "1")]⟩ demoPool).1.status = some 200 ∧
    (app.handleGetCustomersByID demoServer (ResponseWriter.fresh false)
        ⟨"GET", "/customers/1", "", [("id", "1")]⟩ demoPool).1.sentHeader.lookup "Content-Type"
      = some "application/json" ∧
    (app.handleGetCustomersByID demoServer (ResponseWriter.fresh false)
        ⟨"GET", "/customers/1", "", [("id", "1")]⟩ demoPool).1.body
      = [Chunk.json (JSON.obj [("id", JSONLeaf.num 1), ("name", JSONLeaf.str "A"),
          ("phone", JSONLeaf.str "555"), ("active", JSONLeaf.bool true),
          ("created", JSONLeaf.time ⟨1700000000, 0, 0⟩)])] :=
  (C7_id_handlers_translate_service_result demoServer
    (fun s => s.customersSvc.ByID, app.handleGetCustomersByID) (by simp [idHandlers])
    false ⟨"GET", "/customers/1", "", [("id", "1")]⟩ demoPool demoPool "1" 1
    (some demoCustomer) none rfl (by decide) rfl).2.2 demoCustomer _ rfl rfl rfl rfl

theorem parseUintLoop_ok (cs : List Char) : ∀ (n m : Nat), n < 2 ^ 64 →
    strconv.parseUintLoop cs n = (m, none) →
    (∀ c ∈ cs, '0' ≤ c ∧ c ≤ '9') ∧
      m = cs.foldl (fun n c => n * 10 + (c.toNat - '0'.toNat)) n ∧ m < 2 ^ 64 := by
  induction cs with
  | nil =>
    intro n m hn h
    unfold strconv.parseUintLoop at h
    cases h
    exact ⟨by simp, rfl, hn⟩
  | cons c cs ih =>
    intro n m hn h
    unfold strconv.parseUintLoop at h
    dsimp only at h
    split_ifs at h with hd h10 hcut hov
    · cases h
    · cases h
    · cases h
    · have hn1 : (n * 10 % 2 ^ 64 + (c.toNat - '0'.toNat)) % 2 ^ 64
          = n * 10 + (c.toNat - '0'.toNat) := by
        generalize c.toNat - '0'.toNat = d at *
        omega
      rw [hn1] at h
      have hlt : n * 10 + (c.toNat - '0'.toNat) < 2 ^ 64 := by
        rw [← hn1]
        exact Nat.mod_lt _ (by norm_num)
      obtain ⟨h₁, h₂, h₃⟩ := ih _ m hlt h
      refine ⟨?_, ?_, h₃⟩
      · intro x hx
        rcases List.mem_cons.mp hx with hx | hx
        · rw [hx]; exact hd
        · exact h₁ x hx
      · rw [List.foldl_cons]
        exact h₂
    · cases h

theorem parseUintLoop_range (cs : List Char) : ∀ (n m : Nat),
    strconv.parseUintLoop cs n = (m, some strconv.ErrRange) → m = 2 ^ 64 - 1 := by
  induction cs with
  | nil =>
    intro n m h
    unfold strconv.parseUintLoop at h
    cases h
  | cons c cs ih =>
    intro n m h
    unfold strconv.parseUintLoop at h
    dsimp only at h
    split_ifs at h with hd h10 hcut hov
    · simp [strconv.ErrSyntax, strconv.ErrRange] at h
    · cases h; rfl
    · cases h; rfl
    · exact ih _ m h
    · simp [strconv.ErrSyntax, strconv.ErrRange] at h

theorem ParseUint_ok (ds : List Char) (un : Nat) (h : strconv.ParseUint ds = (un, none)) :
    ds ≠ [] ∧ (∀ c ∈ ds, '0' ≤ c ∧ c ≤ '9') ∧ un = decimalValue ds := by
  cases ds with
  | nil => simp [strconv.ParseUint] at h
  | cons c cs =>
    have h' : strconv.parseUintLoop (c :: cs) 0 = (un, none) := h
    obtain ⟨h₁, h₂, _⟩ := parseUintLoop_ok (c :: cs) 0 un (by norm_num) h'
    exact ⟨by simp, h₁, h₂⟩

theorem ParseUint_range (ds : List Char) (un : Nat)
    (h : strconv.ParseUint ds = (un, some strconv.ErrRange)) : un = 2 ^ 64 - 1 := by
  cases ds with
  | nil => simp [strconv.ParseUint, strconv.ErrSyntax, strconv.ErrRange] at h
  | cons c cs => exact parseUintLoop_range (c :: cs) 0 un h

theorem ParseInt_tail (neg : Bool) (ds : List Char) (v : Int) (un : Nat) (err : Option GoError)
    (hpu : strconv.ParseUint ds = (un, err))
    (h : (if err ≠ none ∧ err ≠ some strconv.ErrRange then ((0 : Int), err)
        else if !neg ∧ un ≥ 2 ^ 63 then (2 ^ 63 - 1, some strconv.ErrRange)
        else if neg ∧ un > 2 ^ 63 then (-(2 ^ 63), some strconv.ErrRange)
        else if neg then (-(un : Int), none) else ((un : Int), none)) = (v, none)) :
    ds ≠ [] ∧ (∀ c ∈ ds, '0' ≤ c ∧ c ≤ '9') ∧
      (if neg then decimalValue ds ≤ 2 ^ 63 else decimalValue ds < 2 ^ 63) := by
  cases err with
  | some e =>
    by_cases he : e = strconv.ErrRange
    · subst he
      have hun := ParseUint_range ds un hpu
      subst hun
      cases neg <;> simp at h
    · simp [he] at h
  | none =>
    obtain ⟨h₁, h₂, h₃⟩ := ParseUint_ok ds un hpu
    refine ⟨h₁, h₂, ?_⟩
    rw [← h₃]
    cases neg
    · simp at h
      split_ifs at h with hc
      · simp at h
      · simp only [Bool.false_eq_true, if_false]
        omega
    · simp at h
      split_ifs at h with hc
      · simp at h
      · simp only [if_true]
        omega

theorem ParseInt_ok (s : String) (v : Int) (h : strconv.ParseInt s = (v, none)) :
    IsInt64Decimal s := by
  unfold strconv.ParseInt at h
  cases hs : s.toList with
  | nil =>
    rw [hs] at h
    cases h
  | cons c cs =>
    rw [hs] at h
    dsimp only at h
    rcases hpu : strconv.ParseUint (if c = '+' ∨ c = '-' then cs else c :: cs) with ⟨un, err⟩
    rw [hpu] at h
    have key := ParseInt_tail (decide (c = '-')) _ v un err hpu h
    obtain ⟨h₁, h₂, h₃⟩ := key
    by_cases hplus : c = '+'
    · have hneg : decide (c = '-') = false := by subst hplus; decide
      rw [hneg] at h₃
      simp only [hplus, true_or, if_true] at h₁ h₂ h₃
      refine ⟨['+'], cs, ?_, by simp, h₁, h₂, by simpa using h₃⟩
      rw [hs, hplus]
      rfl
    · by_cases hminus : c = '-'
      · have hneg : decide (c = '-') = true := by simp [hminus]
        rw [hneg] at h₃
        simp only [hminus, or_true, if_true] at h₁ h₂ h₃
        refine ⟨['-'], cs, ?_, by simp, h₁, h₂, by simpa using h₃⟩
        rw [hs, hminus]
        rfl
      · have hneg : decide (c = '-') = false := by simp [hminus]
        rw [hneg] at h₃
        simp only [hplus, hminus, or_self, if_false] at h₁ h₂ h₃
        refine ⟨[], c :: cs, ?_, by simp, h₁, h₂, by simpa using h₃⟩
        rw [hs]
        rfl

theorem handleWithID_bad {σ : Type}
    (call : σ → Int → (Option customers.Customer × Option GoError) × σ)
    (w : ResponseWriter) (r : app.Request) (st : σ)
    (hbad : r.vars.lookup "id" = none ∨
      ∃ idParam, r.vars.lookup "id" = some idParam ∧ ¬ IsInt64Decimal idParam) :
    app.handleWithID call w r st = (http.Error w "Bad Request" 400, st) := by
  rcases hbad with hnone | ⟨idParam, hvar, hnot⟩
  · simp [app.handleWithID, hnone, http.StatusText, http.StatusBadRequest]
  · rcases hparse : strconv.ParseInt idParam with ⟨v, e⟩
    cases e with
    | none => exact absurd (ParseInt_ok idParam v hparse) hnot
    | some e => simp [app.handleWithID, hvar, hparse, http.StatusText, http.StatusBadRequest]

theorem http_Error_status (broken : Bool) (msg : String) (code : Nat) :
    (http.Error (ResponseWriter.fresh broken) msg code).status = some code := by
  cases broken <;>
  simp [http.Error, ResponseWriter.fresh, ResponseWriter.SetHeader, ResponseWriter.WriteHeader,
    ResponseWriter.Write]

/-- C8. For each of the id-taking handlers (`handleGetCustomersByID`,
`handleCustomersBlockByID`, `handleCustomersUnBlockByID`,
`handleCustomersRemoveByID`): when the `id` path variable is missing, or is a
string that is not a base-10 integer in the signed 64-bit range, the handler
answers with `http.Error(w, "Bad Request", 400)`, so the status is 400, and it
does not call the customers service: the store is returned unchanged and the
outcome is the same whatever the services of the server are. -/
theorem C8_bad_id_is_400_without_service_call {σ : Type} (s : app.Server σ)
    (p : (app.Server σ → σ → Int → (Option customers.Customer × Option GoError) × σ) ×
      (app.Server σ → ResponseWriter → app.Request → σ → ResponseWriter × σ))
    (hp : p ∈ idHandlers σ) (broken : Bool) (r : app.Request) (st : σ)
    (hbad : r.vars.lookup "id" = none ∨
      ∃ idParam, r.vars.lookup "id" = some idParam ∧ ¬ IsInt64Decimal idParam) :
    (p.2 s (ResponseWriter.fresh broken) r st).1.status = some 400 ∧
    (p.2 s (ResponseWriter.fresh broken) r st).2 = st ∧
    (∀ s' : app.Server σ,
      p.2 s' (ResponseWriter.fresh broken) r st = p.2 s (ResponseWriter.fresh broken) r st) ∧
    p.2 s (ResponseWriter.fresh broken) r st
      = (http.Error (ResponseWriter.fresh broken) "Bad Request" 400, st) := by
  have key : ∀ s' : app.Server σ, p.2 s' (ResponseWriter.fresh broken) r st
      = (http.Error (ResponseWriter.fresh broken) "Bad Request" 400, st) := by
    intro s'
    simp only [idHandlers, List.mem_cons, List.mem_singleton, List.not_mem_nil, or_false] at hp
    rcases hp with h | h | h | h <;> subst h <;> exact handleWithID_bad _ _ r st hbad
  refine ⟨?_, ?_, ?_, key s⟩
  · rw [key s]
    exact http_Error_status broken _ _
  · rw [key s]
  · intro s'
    rw [key s', key s]

theorem not_decimal_abc : ¬ IsInt64Decimal "abc" := by
  rintro ⟨sign, ds, hs, hsign, _, hdig, _⟩
  rcases hsign with h | h | h <;> subst h
  · have hds : ds = ['a', 'b', 'c'] := by simpa using hs.symm
    subst hds
    have := hdig 'a' (by simp)
    revert this
    decide
  · have : ['a', 'b', 'c'] = '+' :: ds := hs
    simp at this
  · have : ['a', 'b', 'c'] = '-' :: ds := hs
    simp at this

/-- `POST /customers/abc/block` on a server whose customers service records
every call: status 400 and an empty record. -/
theorem C8_bad_id_is_400_without_service_call_witness :
    (app.handleCustomersBlockByID spyServer (ResponseWriter.fresh false)
        ⟨"POST", "/customers/abc/block", "", [("id", "abc")]⟩ []).1.status = some 400 ∧
    (app.handleCustomersBlockByID spyServer (ResponseWriter.fresh false)
        ⟨"POST", "/customers/abc/block", "", [("id", "abc")]⟩ []).2 = [] :=
  ⟨(C8_bad_id_is_400_without_service_call spyServer
      (fun s => s.customersSvc.BlockByID, app.handleCustomersBlockByID) (by simp [idHandlers])
      false ⟨"POST", "/customers/abc/block", "", [("id", "abc")]⟩ []
      (Or.inr ⟨"abc", rfl, not_decimal_abc⟩)).1,
   (C8_bad_id_is_400_without_service_call spyServer
      (fun s => s.customersSvc.BlockByID, app.handleCustomersBlockByID) (by simp [idHandlers])
      false ⟨"POST", "/customers/abc/block", "", [("id", "abc")]⟩ []
      (Or.inr ⟨"abc", rfl, not_decimal_abc⟩)).2.1⟩

/-- Ids at the edge of the signed 64-bit range, the empty string and text:
`ParseInt` accepts exactly the first two. -/
theorem ParseInt_examples :
    strconv.ParseInt "9223372036854775807" = (9223372036854775807, none) ∧
    strconv.ParseInt "-9223372036854775808" = (-9223372036854775808, none) ∧
    (strconv.ParseInt "9223372036854775808").2 = some strconv.ErrRange ∧
    (strconv.ParseInt "").2 = some strconv.ErrSyntax ∧
    (strconv.ParseInt "12a").2 = some strconv.ErrSyntax := by
  refine ⟨by decide, by decide, by decide, by decide, by decide⟩

/-- With the `id` variable supplied, the handler and the service do delete:
`handleCustomersRemoveByID` answers 200 with the stored customer, and a
following `GET /customers/1` is answered with 404. -/
theorem remove_with_id_variable_then_get :
    (app.handleCustomersRemoveByID demoServer (ResponseWriter.fresh false)
        ⟨"DELETE", "/customers/1", "", [("id", "1")]⟩ demoPool).1.status = some 200 ∧
    (app.handleCustomersRemoveByID demoServer (ResponseWriter.fresh false)
        ⟨"DELETE", "/customers/1", "", [("id", "1")]⟩ demoPool).1.body
      = [Chunk.json (JSON.obj [("id", JSONLeaf.num 1), ("name", JSONLeaf.str "A"),
          ("phone", JSONLeaf.str "555"), ("active", JSONLeaf.bool true),
          ("created", JSONLeaf.time ⟨1700000000, 0, 0⟩)])] ∧
    (app.ServeHTTP demoServer (ResponseWriter.fresh false) ⟨"GET", "/customers/1", "", []⟩
        (app.handleCustomersRemoveByID demoServer (ResponseWriter.fresh false)
          ⟨"DELETE", "/customers/1", "", [("id", "1")]⟩ demoPool).2).map (fun x => x.1.status)
      = some (some 404) := by
  refine ⟨by decide, by decide, by decide⟩

/-- C9 (the code at the failing input). The route table registers
`handleCustomersRemoveByID` for `DELETE /customers`, a template without an
`{id}` segment.  With customer 1 stored, `DELETE /customers/1` matches only the
path of the `GET` route, so the router answers 405, the handler is not reached
and the customer stays: the following `GET /customers/1` is answered with 200.
`DELETE /customers` does reach the handler, with no `id` variable, and is
answered with 400. -/
theorem C9_delete_route_carries_no_id :
    app.routerMatch app.Init "DELETE" "/customers/1" = app.RouteMatch.methodMismatch ∧
    (app.ServeHTTP demoServer (ResponseWriter.fresh false)
        ⟨"DELETE", "/customers/1", "", []⟩ demoPool).map (fun x => (x.1.status, x.1.body, x.2))
      = some (some 405, [], demoPool) ∧
    (app.ServeHTTP demoServer (ResponseWriter.fresh false)
        ⟨"GET", "/customers/1", "", []⟩ demoPool).map (fun x => x.1.status) = some (some 200) ∧
    app.routerMatch app.Init "DELETE" "/customers"
      = app.RouteMatch.matched app.HandlerName.handleCustomersRemoveByID [] ∧
    (app.ServeHTTP demoServer (ResponseWriter.fresh false)
        ⟨"DELETE", "/customers", "", []⟩ demoPool).map (fun x => (x.1.status, x.2))
      = some (some 400, demoPool) := by
  refine ⟨by decide, by decide, by decide, by decide, by decide⟩

/-- The branch of lines 115-117 and 138-140 taken in isolation: were a
customers service to answer a list handler with `ErrNotFound`, the handler
would call `http.Error` with 404 and, not returning, again with 500. -/
theorem list_handlers_twice_if_ErrNotFound
    (auth : Int × Option GoError) (one : Option customers.Customer × Option GoError)
    (items : Option (List customers.Customer)) (r : app.Request) :
    (app.handleGetCustomersAll (stubServer auth one (items, some customers.ErrNotFound))
        (ResponseWriter.fresh false) r ()).1
      = { header := [("Content-Type", "text/plain; charset=utf-8"),
            ("X-Content-Type-Options", "nosniff")],
          status := some 404,
          sentHeader := [("Content-Type", "text/plain; charset=utf-8"),
            ("X-Content-Type-Options", "nosniff")],
          body := [Chunk.text "Not Found\n", Chunk.text "Internal Server Error\n"],
          writeHeaderCalls := 2, writeCalls := 2, broken := false } ∧
    (app.handleGetCustomersAllActive (stubServer auth one (items, some customers.ErrNotFound))
        (ResponseWriter.fresh false) r ()).1
      = { header := [("Content-Type", "text/plain; charset=utf-8"),
            ("X-Content-Type-Options", "nosniff")],
          status := some 404,
          sentHeader := [("Content-Type", "text/plain; charset=utf-8"),
            ("X-Content-Type-Options", "nosniff")],
          body := [Chunk.text "Not Found\n", Chunk.text "Internal Server Error\n"],
          writeHeaderCalls := 2, writeCalls := 2, broken := false } := by
  refine ⟨?_, ?_⟩
  · simp [app.handleGetCustomersAll, app.handleList, stubServer, stubCustomers, errorsIs,
      errorsIsChain, customers.ErrNotFound, http.Error, http.StatusText, http.StatusNotFound,
      http.StatusInternalServerError, ResponseWriter.fresh, ResponseWriter.SetHeader,
      ResponseWriter.WriteHeader, ResponseWriter.Write, Header.Set]
  · simp [app.handleGetCustomersAllActive, app.handleList, stubServer, stubCustomers, errorsIs,
      errorsIsChain, customers.ErrNotFound, http.Error, http.StatusText, http.StatusNotFound,
      http.StatusInternalServerError, ResponseWriter.fresh, ResponseWriter.SetHeader,
      ResponseWriter.WriteHeader, ResponseWriter.Write, Header.Set]

theorem http_Error_once (msg : String) (code : Nat) :
    WroteOnce (http.Error (ResponseWriter.fresh false) msg code) := by
  simp [WroteOnce, http.Error, ResponseWriter.fresh, ResponseWriter.SetHeader,
    ResponseWriter.WriteHeader, ResponseWriter.Write]

theorem writeJSON_once (marshalled : Except GoError Bytes) :
    WroteOnce (app.writeJSON (ResponseWriter.fresh false) marshalled) := by
  cases marshalled with
  | error e => exact http_Error_once _ _
  | ok data =>
    simp [WroteOnce, app.writeJSON, ResponseWriter.fresh, ResponseWriter.SetHeader,
      ResponseWriter.WriteHeader, ResponseWriter.Write]

theorem handleWithID_once {σ : Type}
    (call : σ → Int → (Option customers.Customer × Option GoError) × σ)
    (r : app.Request) (st : σ) :
    WroteOnce (app.handleWithID call (ResponseWriter.fresh false) r st).1 := by
  cases hvar : r.vars.lookup "id" with
  | none =>
    simp only [app.handleWithID, hvar]
    exact http_Error_once _ _
  | some idParam =>
    rcases hparse : strconv.ParseInt idParam with ⟨id, perr⟩
    cases perr with
    | some e =>
      simp only [app.handleWithID, hvar, hparse]
      exact http_Error_once _ _
    | none =>
      rcases hcall : call st id with ⟨⟨item, err⟩, st'⟩
      simp only [app.handleWithID, hvar, hparse, hcall]
      split_ifs
      · exact http_Error_once _ _
      · exact http_Error_once _ _
      · exact writeJSON_once _

theorem handleList_once {σ : Type}
    (call : σ → (Option (List customers.Customer) × Option GoError) × σ) (st : σ)
    (h : errorsIs (call st).1.2 customers.ErrNotFound = false) :
    WroteOnce (app.handleList call (ResponseWriter.fresh false) st).1 := by
  rcases hcall : call st with ⟨⟨items, err⟩, st'⟩
  rw [hcall] at h
  dsimp only at h
  simp only [app.handleList, hcall, h, Bool.false_eq_true, if_false]
  split_ifs
  · exact http_Error_once _ _
  · exact writeJSON_once _

theorem handleValidateToken_once {σ : Type} (s : app.Server σ) (r : app.Request) (st : σ) :
    WroteOnce (app.handleValidateToken s (ResponseWriter.fresh false) r st).1 := by
  cases hdec : s.decodeToken r.body with
  | error e =>
    simp only [app.handleValidateToken, hdec]
    exact http_Error_once _ _
  | ok token =>
    rcases hauth : s.securitySvc.AuthenticateCusomer st token.Token with ⟨⟨id, er⟩, st'⟩
    by_cases h₁ : er = some security.ErrNoSuchUser
    · subst h₁
      simp [app.handleValidateToken, hdec, hauth, WroteOnce, app.MarshalResponceFail,
        ResponseWriter.fresh, ResponseWriter.SetHeader, ResponseWriter.WriteHeader,
        ResponseWriter.Write]
    · by_cases h₂ : er = some security.ErrExpired
      · subst h₂
        simp [app.handleValidateToken, hdec, hauth, WroteOnce, app.MarshalResponceFail,
          ResponseWriter.fresh, ResponseWriter.SetHeader, ResponseWriter.WriteHeader,
          ResponseWriter.Write, security.ErrExpired, security.ErrNoSuchUser]
      · by_cases h₃ : er = none
        · subst h₃
          simp [app.handleValidateToken, hdec, hauth, WroteOnce, app.MarshalResponceOk,
            ResponseWriter.fresh, ResponseWriter.SetHeader, ResponseWriter.WriteHeader,
            ResponseWriter.Write]
        · simp only [app.handleValidateToken, hdec, hauth, h₁, h₂, h₃, if_false]
          exact http_Error_once _ _

theorem rowsResult_never_ErrNotFound (pool : Pool) (keep : CustomerRow → Bool)
    (hquery : errorsIs pool.queryErr pgx.ErrNoRows = false) :
    errorsIs (customers.rowsResult (customers.queryAll pool keep)).2 customers.ErrNotFound
      = false := by
  unfold customers.queryAll
  cases hq : pool.queryErr with
  | none => simp [customers.rowsResult, errorsIs]
  | some e =>
    rw [hq] at hquery
    simp only [customers.rowsResult, hquery, Bool.false_eq_true, if_false]
    decide

theorem handleGetToken_once {σ : Type} (s : app.Server σ) (r : app.Request) (st : σ)
    (hptr : s.decodeAuth r.body ≠ Except.ok none) :
    ∃ w' st', app.handleGetToken s (ResponseWriter.fresh false) r st = some (w', st') ∧
      WroteOnce w' := by
  cases hdec : s.decodeAuth r.body with
  | error e =>
    exact ⟨http.Error (ResponseWriter.fresh false)
      (http.StatusText http.StatusInternalServerError) http.StatusInternalServerError, st,
      by simp only [app.handleGetToken, hdec], http_Error_once _ _⟩
  | ok ptr =>
    cases ptr with
    | none => exact absurd hdec hptr
    | some auth =>
      rcases hcall : s.customersSvc.TokenForCustomer st auth.Login auth.Password with
        ⟨⟨token, err⟩, st'⟩
      cases err with
      | some e =>
        exact ⟨http.Error (ResponseWriter.fresh false)
          (http.StatusText http.StatusInternalServerError) http.StatusInternalServerError, st',
          by simp [app.handleGetToken, hdec, hcall], http_Error_once _ _⟩
      | none =>
        exact ⟨app.writeJSON (ResponseWriter.fresh false) (app.MarshalToken { Token := token }),
          st', by simp [app.handleGetToken, hdec, hcall], writeJSON_once _⟩

theorem Create_returns (deps : customers.Deps) (pool : Pool) (item : customers.CustomerAuth) :
    ∃ res, customers.Create deps pool (some item) = some res := by
  unfold customers.Create
  dsimp only
  cases deps.bcryptGenerate item.Password with
  | error e => exact ⟨_, rfl⟩
  | ok hash =>
    cases pool.queryErr with
    | some e => exact ⟨_, rfl⟩
    | none => exact ⟨_, rfl⟩

theorem handleGetCustomersSave_once (deps : customers.Deps) (now : Time)
    (decodeToken : String → Except GoError app.Token)
    (decodeAuth : String → Except GoError (Option security.Auth))
    (decodeCustomerAuth : String → Except GoError (Option customers.CustomerAuth))
    (r : app.Request) (pool : Pool)
    (hptr : decodeCustomerAuth r.body ≠ Except.ok none) :
    ∃ w' pool', app.handleGetCustomersSave
        (app.NewServer deps now decodeToken decodeAuth decodeCustomerAuth)
        (ResponseWriter.fresh false) r pool = some (w', pool') ∧ WroteOnce w' := by
  cases hdec : decodeCustomerAuth r.body with
  | error e =>
    exact ⟨http.Error (ResponseWriter.fresh false)
      (http.StatusText http.StatusInternalServerError) http.StatusInternalServerError, pool,
      by simp only [app.handleGetCustomersSave, app.NewServer, hdec], http_Error_once _ _⟩
  | ok ptr =>
    cases ptr with
    | none => exact absurd hdec hptr
    | some item =>
      obtain ⟨⟨⟨customer, err⟩, pool'⟩, hcall⟩ := Create_returns deps pool item
      cases err with
      | some e =>
        exact ⟨http.Error (ResponseWriter.fresh false)
          (http.StatusText http.StatusInternalServerError) http.StatusInternalServerError, pool',
          by simp [app.handleGetCustomersSave, app.NewServer, hdec, hcall], http_Error_once _ _⟩
      | none =>
        exact ⟨app.writeJSON (ResponseWriter.fresh false) (json.MarshalCustomer customer),
          pool', by simp [app.handleGetCustomersSave, app.NewServer, hdec, hcall],
          writeJSON_once _⟩

/-- C10. Every handler of the server writes exactly one response per request:
for each of the nine handlers, every request and every state of the store, so
for every outcome the repository's services return to it, on a writer that
accepts the write, the handler ends having set the status exactly once and
written a body exactly once.  The frame in which a service returns an outcome:
a failing `Query` is not `pgx.ErrNoRows` (the driver reports that error from
`Row.Scan` only), and the pointer decoded by `handleGetToken` and
`handleGetCustomersSave` is not nil.  In that frame `All` and `AllActive` do not
return `ErrNotFound`. -/
theorem C10_every_handler_writes_once (deps : customers.Deps) (now : Time)
    (decodeToken : String → Except GoError app.Token)
    (decodeAuth : String → Except GoError (Option security.Auth))
    (decodeCustomerAuth : String → Except GoError (Option customers.CustomerAuth))
    (h : app.HandlerName) (r : app.Request) (pool : Pool)
    (hquery : errorsIs pool.queryErr pgx.ErrNoRows = false)
    (hauth : h = app.HandlerName.handleGetToken → decodeAuth r.body ≠ Except.ok none)
    (hitem : h = app.HandlerName.handleGetCustomersSave →
      decodeCustomerAuth r.body ≠ Except.ok none) :
    ∃ w' pool', app.runHandler (app.NewServer deps now decodeToken decodeAuth decodeCustomerAuth)
        h (ResponseWriter.fresh false) r pool = some (w', pool') ∧ WroteOnce w' := by
  cases h with
  | handleGetCustomersByID =>
    exact ⟨(app.handleWithID customers.ByID (ResponseWriter.fresh false) r pool).1,
      (app.handleWithID customers.ByID (ResponseWriter.fresh false) r pool).2, rfl,
      handleWithID_once customers.ByID r pool⟩
  | handleGetCustomersAllActive =>
    exact ⟨(app.handleList customers.AllActive (ResponseWriter.fresh false) pool).1,
      (app.handleList customers.AllActive (ResponseWriter.fresh false) pool).2, rfl,
      handleList_once customers.AllActive pool (rowsResult_never_ErrNotFound pool _ hquery)⟩
  | handleGetCustomersAll =>
    exact ⟨(app.handleList customers.All (ResponseWriter.fresh false) pool).1,
      (app.handleList customers.All (ResponseWriter.fresh false) pool).2, rfl,
      handleList_once customers.All pool (rowsResult_never_ErrNotFound pool _ hquery)⟩
  | handleGetToken => exact handleGetToken_once _ r pool (hauth rfl)
  | handleValidateToken =>
    exact ⟨(app.handleValidateToken
        (app.NewServer deps now decodeToken decodeAuth decodeCustomerAuth)
        (ResponseWriter.fresh false) r pool).1,
      (app.handleValidateToken
        (app.NewServer deps now decodeToken decodeAuth decodeCustomerAuth)
        (ResponseWriter.fresh false) r pool).2, rfl, handleValidateToken_once _ r pool⟩
  | handleGetCustomersSave =>
    exact handleGetCustomersSave_once deps now decodeToken decodeAuth decodeCustomerAuth r pool
      (hitem rfl)
  | handleCustomersBlockByID =>
    exact ⟨(app.handleWithID customers.BlockByID (ResponseWriter.fresh false) r pool).1,
      (app.handleWithID customers.BlockByID (ResponseWriter.fresh false) r pool).2, rfl,
      handleWithID_once customers.BlockByID r pool⟩
  | handleCustomersUnBlockByID =>
    exact ⟨(app.handleWithID customers.UnBlockByID (ResponseWriter.fresh false) r pool).1,
      (app.handleWithID customers.UnBlockByID (ResponseWriter.fresh false) r pool).2, rfl,
      handleWithID_once customers.UnBlockByID r pool⟩
  | handleCustomersRemoveByID =>
    exact ⟨(app.handleWithID customers.RemoveByID (ResponseWriter.fresh false) r pool).1,
      (app.handleWithID customers.RemoveByID (ResponseWriter.fresh false) r pool).2, rfl,
      handleWithID_once customers.RemoveByID r pool⟩

/-- `GET /customers` against the sample database. -/
theorem C10_every_handler_writes_once_witness :
    ∃ w' pool', app.runHandler demoServer app.HandlerName.handleGetCustomersAll
        (ResponseWriter.fresh false) ⟨"GET", "/customers", "", []⟩ demoPool = some (w', pool') ∧
      WroteOnce w' :=
  C10_every_handler_writes_once demoDeps ⟨1793750400, 0, 0⟩ (fun body => Except.ok ⟨body⟩)
    (fun _ => Except.ok none) (fun _ => Except.ok none)
    app.HandlerName.handleGetCustomersAll ⟨"GET", "/customers", "", []⟩ demoPool
    (by decide) (by intro h; cases h) (by intro h; cases h)

theorem writeJSON_status (broken : Bool) (marshalled : Except GoError Bytes) :
    (app.writeJSON (ResponseWriter.fresh broken) marshalled).status = some 200 ∨
    (app.writeJSON (ResponseWriter.fresh broken) marshalled).status = some 500 := by
  cases marshalled with
  | error e =>
    right
    exact http_Error_status broken _ _
  | ok data =>
    left
    cases broken <;>
    simp [app.writeJSON, http.Error, ResponseWriter.fresh, ResponseWriter.SetHeader,
      ResponseWriter.WriteHeader, ResponseWriter.Write]

/-- Every body whose first value is not the literal `null`: the pointer is set
or decoding fails, and `handleGetToken` and `handleGetCustomersSave` end by
writing a response with status 200 or 500. -/
theorem pointer_handlers_respond_unless_null (deps : customers.Deps) (now : Time)
    (decodeToken : String → Except GoError app.Token)
    (decodeAuthValue : String → Except GoError security.Auth)
    (decodeCustomerAuthValue : String → Except GoError customers.CustomerAuth)
    (broken : Bool) (r : app.Request) (pool : Pool) (hbody : json.startsWithNull r.body = false) :
    (∃ w' pool', app.handleGetToken
        (pointerServer deps now decodeToken decodeAuthValue decodeCustomerAuthValue)
        (ResponseWriter.fresh broken) r pool = some (w', pool') ∧
      (w'.status = some 200 ∨ w'.status = some 500)) ∧
    (∃ w' pool', app.handleGetCustomersSave
        (pointerServer deps now decodeToken decodeAuthValue decodeCustomerAuthValue)
        (ResponseWriter.fresh broken) r pool = some (w', pool') ∧
      (w'.status = some 200 ∨ w'.status = some 500)) := by
  have h500 := http_Error_status broken "Internal Server Error" 500
  constructor
  · cases hdec : decodeAuthValue r.body with
    | error e =>
      exact ⟨_, pool, by
        simp [app.handleGetToken, pointerServer, app.NewServer, json.DecodePointer, hbody, hdec,
          http.StatusText, http.StatusInternalServerError], Or.inr h500⟩
    | ok auth =>
      rcases hcall : customers.TokenForCustomer deps pool auth.Login auth.Password with
        ⟨⟨token, err⟩, pool'⟩
      cases err with
      | some e =>
        exact ⟨_, pool', by
          simp [app.handleGetToken, pointerServer, app.NewServer, json.DecodePointer, hbody, hdec,
            hcall, http.StatusText, http.StatusInternalServerError], Or.inr h500⟩
      | none =>
        exact ⟨app.writeJSON (ResponseWriter.fresh broken) (app.MarshalToken { Token := token }),
          pool', by
          simp [app.handleGetToken, pointerServer, app.NewServer, json.DecodePointer, hbody, hdec,
            hcall], writeJSON_status broken _⟩
  · cases hdec : decodeCustomerAuthValue r.body with
    | error e =>
      exact ⟨_, pool, by
        simp [app.handleGetCustomersSave, pointerServer, app.NewServer, json.DecodePointer, hbody,
          hdec, http.StatusText, http.StatusInternalServerError], Or.inr h500⟩
    | ok item =>
      rcases hcall : customers.Create deps pool (some item) with _ | ⟨⟨customer, err⟩, pool'⟩
      · exfalso
        unfold customers.Create at hcall
        dsimp only at hcall
        cases hgen : deps.bcryptGenerate item.Password with
        | error e => simp [hgen] at hcall
        | ok hash =>
          cases hq : pool.queryErr with
          | some e => simp [hgen, hq] at hcall
          | none => simp [hgen, hq] at hcall
      · cases err with
        | some e =>
          exact ⟨_, pool', by
            simp [app.handleGetCustomersSave, pointerServer, app.NewServer, json.DecodePointer,
              hbody, hdec, hcall, http.StatusText, http.StatusInternalServerError], Or.inr h500⟩
        | none =>
          exact ⟨app.writeJSON (ResponseWriter.fresh broken) (json.MarshalCustomer customer),
            pool', by
            simp [app.handleGetCustomersSave, pointerServer, app.NewServer, json.DecodePointer,
              hbody, hdec, hcall], writeJSON_status broken _⟩

/-- A body that pads the literal or appends to it is read as `null` too. -/
theorem padded_null_bodies :
    json.startsWithNull "null" = true ∧ json.startsWithNull " null" = true ∧
    json.startsWithNull "null\n" = true ∧ json.startsWithNull "null{}" = true ∧
    json.startsWithNull "[null]" = false := by
  refine ⟨by decide, by decide, by decide, by decide, by decide⟩

/-- Every body whose first value is the literal `null` (padded or followed by
more input) leaves the pointer nil, and both handlers panic. -/
theorem null_first_value_panics (deps : customers.Deps) (now : Time)
    (decodeToken : String → Except GoError app.Token)
    (decodeAuthValue : String → Except GoError security.Auth)
    (decodeCustomerAuthValue : String → Except GoError customers.CustomerAuth)
    (w : ResponseWriter) (r : app.Request) (pool : Pool)
    (hnull : json.startsWithNull r.body = true) :
    app.handleGetToken
        (pointerServer deps now decodeToken decodeAuthValue decodeCustomerAuthValue)
        w r pool = none ∧
    app.handleGetCustomersSave
        (pointerServer deps now decodeToken decodeAuthValue decodeCustomerAuthValue)
        w r pool = none := by
  constructor
  · simp [app.handleGetToken, pointerServer, app.NewServer, json.DecodePointer, hnull]
  · simp [app.handleGetCustomersSave, pointerServer, app.NewServer, json.DecodePointer, hnull,
      customers.Create]

theorem route_token : app.routerMatch app.Init "POST" "/api/customers/token"
    = app.RouteMatch.matched app.HandlerName.handleGetToken [] := by decide

theorem route_save : app.routerMatch app.Init "POST" "/api/customers"
    = app.RouteMatch.matched app.HandlerName.handleGetCustomersSave [] := by decide

/-- C11 (the code at the failing input). The decoder accepts the body `null`
without error and leaves the pointer nil.  `handleGetToken` then reads
`auth.Login` through the nil `*security.Auth`, and `handleGetCustomersSave`
passes the nil `*customers.CustomerAuth` to `Create`, which reads `item.Name`:
both end in a run-time panic (`none`) and write no response, whatever the
writer, the store and the other dependencies are; so do `POST
/api/customers/token` and `POST /api/customers` through the route table. -/
theorem C11_null_body_panics (deps : customers.Deps) (now : Time)
    (decodeToken : String → Except GoError app.Token)
    (decodeAuthValue : String → Except GoError security.Auth)
    (decodeCustomerAuthValue : String → Except GoError customers.CustomerAuth)
    (w : ResponseWriter) (method path : String) (vars : List (String × String)) (pool : Pool) :
    json.DecodePointer decodeAuthValue "null" = Except.ok none ∧
    json.DecodePointer decodeCustomerAuthValue "null" = Except.ok none ∧
    app.handleGetToken
        (pointerServer deps now decodeToken decodeAuthValue decodeCustomerAuthValue)
        w ⟨method, path, "null", vars⟩ pool = none ∧
    app.handleGetCustomersSave
        (pointerServer deps now decodeToken decodeAuthValue decodeCustomerAuthValue)
        w ⟨method, path, "null", vars⟩ pool = none ∧
    app.ServeHTTP (pointerServer deps now decodeToken decodeAuthValue decodeCustomerAuthValue)
        w ⟨"POST", "/api/customers/token", "null", []⟩ pool = none ∧
    app.ServeHTTP (pointerServer deps now decodeToken decodeAuthValue decodeCustomerAuthValue)
        w ⟨"POST", "/api/customers", "null", []⟩ pool = none := by
  have hnull : ∀ {α : Type} (f : String → Except GoError α),
      json.DecodePointer f "null" = Except.ok none := by
    intro α f
    have hstart : json.startsWithNull "null" = true := by decide
    simp [json.DecodePointer, hstart]
  have htoken : ∀ m p vs, app.handleGetToken
      (pointerServer deps now decodeToken decodeAuthValue decodeCustomerAuthValue)
      w ⟨m, p, "null", vs⟩ pool = none := by
    intro m p vs
    simp [app.handleGetToken, pointerServer, app.NewServer, hnull]
  have hsave : ∀ m p vs, app.handleGetCustomersSave
      (pointerServer deps now decodeToken decodeAuthValue decodeCustomerAuthValue)
      w ⟨m, p, "null", vs⟩ pool = none := by
    intro m p vs
    simp [app.handleGetCustomersSave, pointerServer, app.NewServer, hnull, customers.Create]
  refine ⟨hnull _, hnull _, htoken _ _ _, hsave _ _ _, ?_, ?_⟩
  · simp only [app.ServeHTTP, route_token, app.runHandler]
    exact htoken _ _ _
  · simp only [app.ServeHTTP, route_save, app.runHandler]
    exact hsave _ _ _

end Crud
